import Mathlib

/-!
Shallow embedding of the interview session engine
(`src/types/interview.ts`, `src/services/aiInterviewService.ts`,
`src/store/slices/sessionSlice.ts`, `src/store/slices/candidatesSlice.ts`,
`src/store/thunks/sessionThunks.ts`, `src/features/interviewee/IntervieweeView.tsx`).

Conventions of the embedding:
* JS numbers holding whole seconds / timestamps are modelled as `Int`
  (ISO timestamp strings are modelled by their epoch second value);
  scores are modelled as `Rat` (JS floating point arithmetic on the score
  range stays well inside exact double precision here).
* `Record<string, T>` objects are modelled as association lists
  (`List (String × T)`): assignment replaces an existing key in place and
  appends a fresh key at the end, exactly like JS object assignment.
* `String.prototype.trim` / `toLowerCase` / `includes` are modelled by the
  structural functions `jsTrim` / `jsLower` / `jsIncludes` below.
* `nanoid()` chat-message ids are determinized by a message counter carried
  in the model state; question/session ids are carried by the events.
* Redux dispatches inside one synchronous block of a thunk are modelled as
  one atomic step; the `await` points of `submitAnswer` split it into a
  begin step and a finish step so that timer ticks can interleave.
-/

namespace Crisp

/-- One step of matching `needle` against the head of `hay`. -/
def prefixMatches : List Char → List Char → Bool
  | [], _ => true
  | _ :: _, [] => false
  | a :: as, b :: bs => (a = b) && prefixMatches as bs

/-- JS `String.prototype.includes`, on char lists: `needle` occurs inside `hay`. -/
def listIncludes (needle : List Char) : List Char → Bool
  | [] => needle.isEmpty
  | c :: tl => prefixMatches needle (c :: tl) || listIncludes needle tl

/-- JS `haystack.includes(needle)`. -/
def jsIncludes (haystack needle : String) : Bool :=
  listIncludes needle.data haystack.data

/-- JS `String.prototype.trim` (whitespace stripped from both ends),
modelled structurally so it evaluates in the kernel. -/
def jsTrim (s : String) : String :=
  ⟨((s.data.dropWhile Char.isWhitespace).reverse.dropWhile Char.isWhitespace).reverse⟩

/-- ASCII lower-casing of one character (JS `toLowerCase` restricted to ASCII,
which is all the keyword matching below ever needs). -/
def charLower (c : Char) : Char :=
  if 65 ≤ c.toNat ∧ c.toNat ≤ 90 then Char.ofNat (c.toNat + 32) else c

/-- JS `String.prototype.toLowerCase` (ASCII fragment). -/
def jsLower (s : String) : String :=
  ⟨s.data.map charLower⟩

/-- Association-list read, modelling `obj[key]` on a JS object. -/
def recGet {α : Type} : List (String × α) → String → Option α
  | [], _ => none
  | (k1, v) :: rest, k => if k1 = k then some v else recGet rest k

/-- Association-list write, modelling `obj[key] = v` on a JS object:
an existing key is updated in place, a fresh key is appended at the end. -/
def recSet {α : Type} : List (String × α) → String → α → List (String × α)
  | [], k, v => [(k, v)]
  | (k1, v1) :: rest, k, v =>
      if k1 = k then (k, v) :: rest else (k1, v1) :: recSet rest k v

/-- Spec-side clamp on integers: `clamp(x, lo, hi) = max lo (min hi x)`. -/
def intClamp (x lo hi : Int) : Int := max lo (min hi x)

/-- Spec-side clamp on rationals. -/
def ratClamp (x lo hi : Rat) : Rat := max lo (min hi x)

/-! ## Data model (`src/types/interview.ts`) -/

inductive QuestionDifficulty where
  | easy
  | medium
  | hard
deriving DecidableEq, Repr

inductive RequiredProfileField where
  | name
  | email
  | phone
deriving DecidableEq, Repr

structure ResumeFileMeta where
  id : String
  fileName : String
  mimeType : String
  sizeBytes : Int
  uploadedAt : Int
  storageKey : String
deriving DecidableEq, Repr

structure CandidateProfile where
  id : String
  name : Option String
  email : Option String
  phone : Option String
  role : String
  resume : Option ResumeFileMeta
  missingFields : List RequiredProfileField
deriving DecidableEq, Repr

inductive ChatSender where
  | system
  | assistant
  | candidate
deriving DecidableEq, Repr

/-- The `metadata` payloads actually attached to chat messages by the thunks. -/
inductive MsgMeta where
  | start
  | question (questionId : String) (difficulty : QuestionDifficulty) (guidance : Option String)
  | candidateMeta (questionId : String) (autoSubmitted : Bool) (rawAnswer : String)
  | feedback (questionId : String) (score : Rat)
  | completion
deriving DecidableEq, Repr

structure ChatMessage where
  id : String
  sender : ChatSender
  body : String
  createdAt : Int
  metadata : Option MsgMeta
deriving DecidableEq, Repr

structure InterviewQuestion where
  id : String
  prompt : String
  difficulty : QuestionDifficulty
  category : String
  timeLimitSeconds : Int
  guidance : Option String
deriving DecidableEq, Repr

structure AnswerRecord where
  questionId : String
  answer : String
  startedAt : Int
  submittedAt : Int
  elapsedSeconds : Int
  autoSubmitted : Bool
  aiScore : Option Rat
  aiFeedback : Option String
deriving DecidableEq, Repr

structure InterviewSummary where
  finalScore : Rat
  summaryText : String
  strengths : List String
  improvements : List String
deriving DecidableEq, Repr

inductive SessionStage where
  | resumeUpload
  | profileCompletion
  | readyToStart
  | questioning
  | paused
  | completed
deriving DecidableEq, Repr

structure QuestionTimerState where
  questionId : String
  remainingSeconds : Int
  isRunning : Bool
  lastTickAt : Option Int
  startedAt : Option Int
deriving DecidableEq, Repr

structure InterviewSession where
  id : String
  candidateId : String
  createdAt : Int
  updatedAt : Int
  stage : SessionStage
  currentQuestionId : Option String
  questions : List (String × InterviewQuestion)
  questionOrder : List String
  answers : List (String × AnswerRecord)
  timers : List (String × QuestionTimerState)
  chat : List ChatMessage
  summary : Option InterviewSummary
deriving DecidableEq, Repr

structure CandidateArchiveRecord where
  id : String
  profile : CandidateProfile
  sessionId : String
  completedAt : Int
  finalScore : Rat
  summary : InterviewSummary
  questions : List InterviewQuestion
  answers : List AnswerRecord
  chat : List ChatMessage
deriving DecidableEq, Repr

structure InterviewConfiguration where
  totalQuestions : Nat
  difficultyPattern : List QuestionDifficulty
  timerByDifficulty : QuestionDifficulty → Int

def DEFAULT_INTERVIEW_CONFIGURATION : InterviewConfiguration where
  totalQuestions := 6
  difficultyPattern := [.easy, .easy, .medium, .medium, .hard, .hard]
  timerByDifficulty := fun d => match d with
    | .easy => 20
    | .medium => 60
    | .hard => 120

/-! ## AI interview service (`src/services/aiInterviewService.ts`)

The network call `callOpenAI` is an external collaborator; each service
function takes the (parsed) AI outcome as an explicit argument, with `none`
standing for "no API key / request failed / no choices". -/

def FALLBACK_QUESTIONS (d : QuestionDifficulty) : List String :=
  match d with
  | .easy =>
      ["Explain the difference between let, const, and var in JavaScript.",
       "What does the Virtual DOM do in React?"]
  | .medium =>
      ["How would you design a REST API endpoint for updating user profiles?",
       "Describe how you would implement server-side rendering in a React + Node.js stack."]
  | .hard =>
      ["Walk through scaling a Node.js app to handle 100k concurrent users.",
       "Design a deployment pipeline for a monorepo with front-end and back-end services."]

/-- `fallbackQuestions(config)`; nanoid question ids are supplied by `ids`. -/
def fallbackQuestions (ids : Nat → String) (config : InterviewConfiguration) :
    List InterviewQuestion :=
  config.difficultyPattern.mapIdx fun index difficulty =>
    let bank := FALLBACK_QUESTIONS difficulty
    let prompt := bank.getD (index % bank.length) ""
    { id := ids index
      prompt := prompt
      difficulty := difficulty
      category := match difficulty with
        | .easy => "fundamentals"
        | .medium => "architecture"
        | .hard => "scaling"
      timeLimitSeconds := config.timerByDifficulty difficulty
      guidance := some "Provide a concise, concrete answer with relevant examples." }

def KEYWORDS : List String := ["react", "node", "api", "architecture", "performance"]

/-- The keyword reduce inside `fallbackScore`: one point per recognized keyword
contained (case-insensitively) in the answer. -/
def keywordBoost (answer : String) : Nat :=
  KEYWORDS.countP fun keyword => jsIncludes (jsLower answer) keyword

/-- The difficulty base of `fallbackScore`. -/
def diffBase (d : QuestionDifficulty) : Rat :=
  match d with
  | .hard => 6
  | .medium => 5
  | .easy => 4

/-- `fallbackScore(answer, difficulty)` from `aiInterviewService.ts`. -/
def fallbackScore (answer : String) (difficulty : QuestionDifficulty) : Rat :=
  if jsTrim answer = "" then 1
  else
    let lengthFactor : Rat := min 1 ((answer.length : Rat) / 400)
    let base := diffBase difficulty
    min 10 (base + (keywordBoost answer : Rat) + lengthFactor * 3)

/-- Parsed JSON payload of an AI evaluation reply (fields may be missing). -/
structure ParsedEval where
  score : Option Rat
  feedback : Option String
deriving DecidableEq, Repr

/-- Outcome of the evaluation call as seen by `evaluateAnswerWithAI`. -/
inductive EvalAI where
  | unavailable
  | unparseable
  | parsed (p : ParsedEval)
deriving DecidableEq, Repr

/-- `evaluateAnswerWithAI(question, answer, chatHistory)`; the chat history only
feeds the prompt, so it does not appear here.  (`Number.isFinite` is always
true on `Rat`, so the NaN guard of the source is vacuous in the model.) -/
def evaluateAnswerWithAI (ai : EvalAI) (question : InterviewQuestion)
    (answer : String) : Rat × String :=
  match ai with
  | .unavailable =>
      (fallbackScore answer question.difficulty,
       "Using offline evaluator: good effort. Make sure to ground your answer with concrete examples and cover both implementation details and trade-offs.")
  | .unparseable =>
      (fallbackScore answer question.difficulty,
       "Unable to parse AI evaluation. Using heuristic score.")
  | .parsed p =>
      (p.score.getD (fallbackScore answer question.difficulty),
       p.feedback.getD "Thanks for your answer.")

/-- Parsed JSON payload of an AI summary reply (fields may be missing). -/
structure ParsedSummary where
  finalScore : Option Rat
  summaryText : Option String
  strengths : Option (List String)
  improvements : Option (List String)
deriving DecidableEq, Repr

/-- The deterministic `baseSummary` of `summarizeInterviewWithAI`. -/
def baseSummary (answers : List AnswerRecord) : InterviewSummary :=
  let totalScore : Rat := answers.foldl (fun total record => total + record.aiScore.getD 5) 0
  let averageScore : Rat := if answers.length > 0 then totalScore / (answers.length : Rat) else 5
  { finalScore := min 10 (max 0 averageScore)
    summaryText := "Solid performance overall. Strengthen your depth in system design and clarify trade-off reasoning when possible."
    strengths := ["Good communication", "Solid practical experience"]
    improvements := ["Provide more metrics", "Discuss alternative approaches"] }

/-- `summarizeInterviewWithAI(profile, questions, answers)` with the AI outcome
made explicit (`none` = request unavailable or reply unparseable). -/
def summarizeInterviewWithAI (ai : Option ParsedSummary) (_profile : CandidateProfile)
    (_questions : List InterviewQuestion) (answers : List AnswerRecord) : InterviewSummary :=
  let base := baseSummary answers
  match ai with
  | none => base
  | some parsed =>
      { finalScore := parsed.finalScore.getD base.finalScore
        summaryText := parsed.summaryText.getD base.summaryText
        strengths := match parsed.strengths with
          | some (s :: tl) => s :: tl
          | _ => base.strengths
        improvements := match parsed.improvements with
          | some (s :: tl) => s :: tl
          | _ => base.improvements }

/-! ## Candidates slice (`src/store/slices/candidatesSlice.ts`) -/

inductive CandidateSortKey where
  | score
  | name
  | date
deriving DecidableEq, Repr

inductive CandidateSortDirection where
  | asc
  | desc
deriving DecidableEq, Repr

structure CandidatesState where
  records : List (String × CandidateArchiveRecord)
  ids : List String
  sortKey : CandidateSortKey
  sortDirection : CandidateSortDirection
  searchQuery : String

def candidatesInitialState : CandidatesState where
  records := []
  ids := []
  sortKey := .score
  sortDirection := .desc
  searchQuery := ""

/-- The `sorters` table; `localeCompare` on names is an external collaborator
of the runtime, passed in as `nameCmp`. -/
def sorterBase (nameCmp : String → String → Int) (key : CandidateSortKey)
    (a b : CandidateArchiveRecord) : Rat :=
  match key with
  | .score => a.finalScore - b.finalScore
  | .name => (nameCmp (a.profile.name.getD "") (b.profile.name.getD "") : Rat)
  | .date => ((a.completedAt - b.completedAt : Int) : Rat)

/-- The comparator closure passed to `Array.prototype.sort` in `applySort`. -/
def sortComparator (nameCmp : String → String → Int)
    (records : List (String × CandidateArchiveRecord)) (key : CandidateSortKey)
    (dir : CandidateSortDirection) (left right : String) : Rat :=
  match recGet records left, recGet records right with
  | some a, some b =>
      let base := sorterBase nameCmp key a b
      match dir with
      | .asc => base
      | .desc => -base
  | _, _ => 0

/-- `applySort`: a comparator sort of the id list (JS `sort` modelled as a
stable merge sort on "comparator ≤ 0"). -/
def applySort (nameCmp : String → String → Int) (ids : List String)
    (records : List (String × CandidateArchiveRecord)) (key : CandidateSortKey)
    (dir : CandidateSortDirection) : List String :=
  ids.mergeSort fun l r => decide (sortComparator nameCmp records key dir l r ≤ 0)

/-- Reducer `upsertCandidate`. -/
def upsertCandidate (nameCmp : String → String → Int) (st : CandidatesState)
    (record : CandidateArchiveRecord) : CandidatesState :=
  let records := recSet st.records record.id record
  let ids := if record.id ∈ st.ids then st.ids else st.ids ++ [record.id]
  { st with
    records := records
    ids := applySort nameCmp ids records st.sortKey st.sortDirection }

/-! ## Session slice reducers (`src/store/slices/sessionSlice.ts`)

`touchSession` stamps `updatedAt` with the wall clock of the dispatch, which
every event carries as `now`. -/

def touchSession (s : InterviewSession) (now : Int) : InterviewSession :=
  { s with updatedAt := now }

def ensureQuestionTimer (s : InterviewSession) (questionId : String)
    (fallbackDifficulty : QuestionDifficulty) (fallbackDuration : Int) : InterviewSession :=
  let freshTimer : QuestionTimerState :=
    { questionId := questionId
      remainingSeconds := fallbackDuration
      isRunning := false
      lastTickAt := none
      startedAt := none }
  let freshQuestion : InterviewQuestion :=
    { id := questionId
      prompt := ""
      difficulty := fallbackDifficulty
      category := ""
      timeLimitSeconds := fallbackDuration
      guidance := none }
  let s :=
    if (recGet s.timers questionId).isSome then s
    else { s with timers := recSet s.timers questionId freshTimer }
  if (recGet s.questions questionId).isSome then s
  else { s with questions := recSet s.questions questionId freshQuestion }

/-- Reducer `upsertQuestions` (acting on a known-live session). -/
def upsertQuestions (s : InterviewSession) (qs : List InterviewQuestion)
    (now : Int) : InterviewSession :=
  let s := qs.foldl
    (fun acc q =>
      let acc := { acc with questions := recSet acc.questions q.id q }
      let acc :=
        if q.id ∈ acc.questionOrder then acc
        else { acc with questionOrder := acc.questionOrder ++ [q.id] }
      ensureQuestionTimer acc q.id q.difficulty q.timeLimitSeconds)
    s
  touchSession s now

/-- Reducer `setCurrentQuestion`. -/
def setCurrentQuestion (s : InterviewSession) (qid : Option String)
    (now : Int) : InterviewSession :=
  let s := { s with currentQuestionId := qid }
  let s := match qid with
    | some q => ensureQuestionTimer s q .easy 20
    | none => s
  touchSession s now

/-- Reducer `setSessionStage`. -/
def setSessionStage (s : InterviewSession) (stage : SessionStage)
    (now : Int) : InterviewSession :=
  touchSession { s with stage := stage } now

/-- Reducer `addChatMessage`; the nanoid is drawn from the message counter,
and the bumped counter is returned alongside. -/
def addChatMessage (s : InterviewSession) (counter : Nat) (sender : ChatSender)
    (body : String) (createdAt : Int) (metadata : Option MsgMeta) :
    InterviewSession × Nat :=
  let msg : ChatMessage :=
    { id := Nat.repr counter
      sender := sender
      body := body
      createdAt := createdAt
      metadata := metadata }
  (touchSession { s with chat := s.chat ++ [msg] } createdAt, counter + 1)

/-- Reducer `recordAnswer`. -/
def recordAnswer (s : InterviewSession) (record : AnswerRecord)
    (now : Int) : InterviewSession :=
  touchSession { s with answers := recSet s.answers record.questionId record } now

/-- Reducer `updateTimerState`. -/
def updateTimerState (s : InterviewSession) (t : QuestionTimerState)
    (now : Int) : InterviewSession :=
  touchSession { s with timers := recSet s.timers t.questionId t } now

/-- Reducer `setInterviewSummary`. -/
def setInterviewSummary (s : InterviewSession) (summary : InterviewSummary)
    (now : Int) : InterviewSession :=
  touchSession { s with summary := some summary } now

/-- Reducer `updateProfileField` — the per-field patch. -/
def setProfileField (p : CandidateProfile) (field : RequiredProfileField)
    (v : String) : CandidateProfile :=
  match field with
  | .name => { p with name := some v }
  | .email => { p with email := some v }
  | .phone => { p with phone := some v }

/-- Reducer `updateProfileField` — the `missingFields` set update
(`new Set(missing)` / `add` / `delete` / `Array.from`). -/
def nextMissingFields (missing : List RequiredProfileField)
    (field : RequiredProfileField) (trimmedValue : String) : List RequiredProfileField :=
  let base := missing.dedup
  if trimmedValue.length = 0 then
    (if field ∈ base then base else base ++ [field])
  else
    base.filter fun f => decide (f ≠ field)

/-! ## Model state

One logical thread of session mutation (`§5` of the spec): the Redux store
(`profile`, `session`, `candidates`), plus the view-component state of
`IntervieweeView.tsx` that the claims depend on (`answerDraft`,
`isSubmittingAnswer` with the in-flight thunk closure, `autoSubmittedRef`). -/

/-- Everything `submitAnswer` captured before its first `await`. -/
structure PendingSubmit where
  questionId : String
  question : InterviewQuestion
  profile : CandidateProfile
  answer : String
  autoSubmitted : Bool
  startedAt : Int
  submittedAt : Int
  elapsedSeconds : Int
deriving DecidableEq, Repr

structure MState where
  profile : Option CandidateProfile
  session : Option InterviewSession
  candidates : CandidatesState
  answerDraft : String
  inFlight : Option PendingSubmit
  autoMarker : Option String
  msgCounter : Nat

/-! ## Thunks (`src/store/thunks/sessionThunks.ts`) and view handlers
(`src/features/interviewee/IntervieweeView.tsx`) -/

/-- Outcome reported by `beginInterview`. -/
inductive BeginOutcome where
  | noSession
  | alreadyInProgress
  | alreadyFinished
  | noQuestions
  | started
deriving DecidableEq, Repr

/-- Thunk `beginInterview`; the generated (or fallback) question list is the
awaited collaborator result, passed in as `questions`. -/
def beginInterview (σ : MState) (questions : List InterviewQuestion)
    (now : Int) : BeginOutcome × MState :=
  match σ.profile, σ.session with
  | some _, some s =>
      if s.stage = .questioning ∧ s.currentQuestionId.isSome then
        (.alreadyInProgress, σ)
      else if s.stage = .completed then
        (.alreadyFinished, σ)
      else
        match questions with
        | [] => (.noQuestions, σ)
        | q0 :: _ =>
            let s1 := upsertQuestions s questions now
            let s2 := setSessionStage s1 .questioning now
            let (s3, c1) := addChatMessage s2 σ.msgCounter .system
              "Interview started. Limited time per question." now (some .start)
            let s4 := setCurrentQuestion s3 (some q0.id) now
            let s5 := updateTimerState s4
              { questionId := q0.id
                remainingSeconds := q0.timeLimitSeconds
                isRunning := true
                lastTickAt := some now
                startedAt := some now } now
            let (s6, c2) := addChatMessage s5 c1 .assistant
              ("Question 1: " ++ q0.prompt) now
              (some (.question q0.id q0.difficulty q0.guidance))
            (.started,
             { σ with
               session := some s6
               msgCounter := c2
               answerDraft := ""
               autoMarker := none })
  | _, _ => (.noSession, σ)

/-- The elapsed-time computation of `submitAnswer` (`Math.round` is the
identity on the integral values modelled here). -/
def submitElapsedSeconds (question : InterviewQuestion)
    (timer : Option QuestionTimerState) (startedAt submittedAt : Int) : Int :=
  let elapsedFromTimer : Int :=
    match timer with
    | some t => question.timeLimitSeconds - max 0 t.remainingSeconds
    | none => max 0 (submittedAt - startedAt)
  max 0 (min question.timeLimitSeconds elapsedFromTimer)

/-- The frozen timer written by `submitAnswer` before evaluation. -/
def submitFrozenTimer (question : InterviewQuestion)
    (timer : Option QuestionTimerState) (startedAt submittedAt : Int) : QuestionTimerState :=
  let elapsedSeconds := submitElapsedSeconds question timer startedAt submittedAt
  { questionId := question.id
    remainingSeconds :=
      max 0 ((timer.map (·.remainingSeconds)).getD (question.timeLimitSeconds - elapsedSeconds))
    isRunning := false
    lastTickAt := some submittedAt
    startedAt := some startedAt }

/-- The candidate transcript body: the trimmed answer, or the auto / manual
placeholder sentinel when it is empty. -/
def submitChatBody (trimmedAnswer : String) (autoSubmitted : Bool) : String :=
  if trimmedAnswer ≠ "" then trimmedAnswer
  else if autoSubmitted then "(No response captured before the timer expired.)"
  else "(No response provided.)"

/-- How a begin-submission attempt resolved. -/
inductive SubmitSignal where
  | ignored
  | validationError
  | busy
  | stateError
  | begun
deriving DecidableEq, Repr

/-- `handleSubmitAnswer` (view) chained into the synchronous prefix of thunk
`submitAnswer`, i.e. everything up to the first `await`: guard checks, timer
freeze, candidate transcript entry, and capture of the pending closure. -/
def handleSubmitBegin (σ : MState) (draft : String) (autoSubmit : Bool)
    (now : Int) : SubmitSignal × MState :=
  match σ.session with
  | none => (.ignored, σ)
  | some s =>
      match s.currentQuestionId with
      | none => (.ignored, σ)
      | some qid =>
          if s.stage ≠ .questioning then (.ignored, σ)
          else if autoSubmit = false ∧ jsTrim draft = "" then (.validationError, σ)
          else if σ.inFlight.isSome then (.busy, σ)
          else
            match σ.profile with
            | none => (.stateError, σ)
            | some p =>
                match recGet s.questions qid with
                | none => (.stateError, σ)
                | some question =>
                    let timer := recGet s.timers qid
                    let submittedAt := now
                    let startedAt := (timer.bind (·.startedAt)).getD submittedAt
                    let trimmedAnswer := jsTrim draft
                    let s1 := updateTimerState s
                      (submitFrozenTimer question timer startedAt submittedAt) now
                    let (s2, c1) := addChatMessage s1 σ.msgCounter .candidate
                      (submitChatBody trimmedAnswer autoSubmit) now
                      (some (.candidateMeta qid autoSubmit trimmedAnswer))
                    (.begun,
                     { σ with
                       session := some s2
                       msgCounter := c1
                       inFlight := some
                         { questionId := qid
                           question := question
                           profile := p
                           answer := trimmedAnswer
                           autoSubmitted := autoSubmit
                           startedAt := startedAt
                           submittedAt := submittedAt
                           elapsedSeconds :=
                             submitElapsedSeconds question timer startedAt submittedAt } })

/-- The auto-submit effect of `IntervieweeView`: when the current timer is
terminal, the question unanswered and the one-shot marker not yet set for it,
mark it and begin an auto submission with the current draft. -/
def autoSubmitStep (σ : MState) (now : Int) : MState :=
  match σ.session with
  | none => σ
  | some s =>
      match s.currentQuestionId with
      | none => σ
      | some qid =>
          match recGet s.timers qid with
          | none => σ
          | some t =>
              if t.remainingSeconds ≤ 0 ∧ t.isRunning = false ∧
                  (recGet s.answers qid).isSome = false ∧ σ.autoMarker ≠ some qid then
                (handleSubmitBegin { σ with autoMarker := some qid } σ.answerDraft true now).2
              else σ

/-- The finalization tail of `submitAnswer` (no next question): stage to
`completed`, summary (AI or fallback), completion message, archive upsert. -/
def finalizeInterview (nameCmp : String → String → Int) (pend : PendingSubmit)
    (summaryAI : Option ParsedSummary) (s : InterviewSession) (counter : Nat)
    (cand : CandidatesState) (now : Int) :
    InterviewSession × Nat × CandidatesState :=
  let s3 := setCurrentQuestion s none now
  let s4 := setSessionStage s3 .completed now
  let orderedQuestions := s4.questionOrder.filterMap fun id => recGet s4.questions id
  let orderedAnswers := s4.questionOrder.filterMap fun id => recGet s4.answers id
  let summary := summarizeInterviewWithAI summaryAI pend.profile orderedQuestions orderedAnswers
  let s5 := setInterviewSummary s4 summary now
  let (s6, c2) := addChatMessage s5 counter .assistant
    ("Thanks! End of the interview. Overall score " ++ toString summary.finalScore ++ "/10.")
    now (some .completion)
  let archive : CandidateArchiveRecord :=
    { id := pend.profile.id
      profile := pend.profile
      sessionId := s6.id
      completedAt := now
      finalScore := summary.finalScore
      summary := summary
      questions := orderedQuestions
      answers := orderedAnswers
      chat := s6.chat }
  (s6, c2, upsertCandidate nameCmp cand archive)

/-- Resumption of thunk `submitAnswer` after its evaluation `await`:
evaluation result (AI or fallback), answer record, feedback message, then
advance to the next question or finalize.  The second `await` (summary) is
folded in: between the two only ticks and submissions can run, and both are
no-ops once the timer is frozen resp. the submission is in flight. -/
def finishSubmit (nameCmp : String → String → Int) (σ : MState) (evalAI : EvalAI)
    (summaryAI : Option ParsedSummary) (now : Int) : MState :=
  match σ.inFlight with
  | none => σ
  | some pend =>
      let (evaluationScore, evaluationFeedback) :=
        evaluateAnswerWithAI evalAI pend.question pend.answer
      match σ.session with
      | none =>
          -- session reset while awaiting: the stale result is discarded
          { σ with inFlight := none, autoMarker := none, answerDraft := "" }
      | some s =>
          let record : AnswerRecord :=
            { questionId := pend.questionId
              answer := pend.answer
              startedAt := pend.startedAt
              submittedAt := pend.submittedAt
              elapsedSeconds := pend.elapsedSeconds
              autoSubmitted := pend.autoSubmitted
              aiScore := some evaluationScore
              aiFeedback := some evaluationFeedback }
          let s1 := recordAnswer s record now
          let (s2, c1) := addChatMessage s1 σ.msgCounter .assistant
            ("Score: " ++ toString evaluationScore ++ "/10. " ++ evaluationFeedback) now
            (some (.feedback pend.questionId evaluationScore))
          let order := s2.questionOrder
          let currentIndex := List.indexOf pend.questionId order
          if h : currentIndex + 1 < order.length then
            -- `hasNextQuestion` (a missing id gives indexOf = length, no next)
            let nextQuestionId := order.get ⟨currentIndex + 1, h⟩
            match recGet s2.questions nextQuestionId with
            | none =>
                { σ with
                  session := some s2
                  msgCounter := c1
                  inFlight := none
                  autoMarker := none
                  answerDraft := "" }
            | some nextQuestion =>
                let s3 := setCurrentQuestion s2 (some nextQuestionId) now
                let s4 := updateTimerState s3
                  { questionId := nextQuestionId
                    remainingSeconds := nextQuestion.timeLimitSeconds
                    isRunning := true
                    lastTickAt := some now
                    startedAt := some now } now
                let (s5, c2) := addChatMessage s4 c1 .assistant
                  ("Question " ++ Nat.repr (currentIndex + 2) ++ ": " ++ nextQuestion.prompt)
                  now (some (.question nextQuestionId nextQuestion.difficulty nextQuestion.guidance))
                { σ with
                  session := some s5
                  msgCounter := c2
                  inFlight := none
                  autoMarker := none
                  answerDraft := "" }
          else
            let (s6, c2, cand) := finalizeInterview nameCmp pend summaryAI s2 c1 σ.candidates now
            { σ with
              session := some s6
              msgCounter := c2
              candidates := cand
              inFlight := none
              autoMarker := none
              answerDraft := "" }

/-- The interval callback of the timer effect in `IntervieweeView`. -/
def tickTimer (t : QuestionTimerState) (now : Int) : QuestionTimerState :=
  if t.isRunning = false then t
  else
    let lastTick := (t.lastTickAt.orElse fun _ => t.startedAt).getD now
    let elapsedSeconds := max 1 (now - lastTick)
    if elapsedSeconds ≤ 0 then t
    else
      let nextRemaining := max 0 (t.remainingSeconds - elapsedSeconds)
      { t with
        remainingSeconds := nextRemaining
        lastTickAt := some now
        isRunning := decide (0 < nextRemaining) }

/-- One scheduler tick: runs the interval callback against the current
timer of the current question and dispatches the update when that timer is running. -/
def tickStep (σ : MState) (now : Int) : MState :=
  match σ.session with
  | none => σ
  | some s =>
      match s.currentQuestionId with
      | none => σ
      | some qid =>
          match recGet s.timers qid with
          | none => σ
          | some t =>
              if t.isRunning = false then σ
              else { σ with session := some (updateTimerState s (tickTimer t now) now) }

/-- Thunk dispatching reducer `updateProfileField` from the profile form. -/
def updateProfileField (σ : MState) (field : RequiredProfileField)
    (value : String) : MState :=
  match σ.profile with
  | none => σ
  | some p =>
      let trimmedValue := jsTrim value
      let p2 :=
        { setProfileField p field trimmedValue with
          missingFields := nextMissingFields p.missingFields field trimmedValue }
      { σ with profile := some p2 }

/-- The profile-completion effect of `IntervieweeView`: once nothing is
missing, move `profile-completion` to `ready-to-start`. -/
def profileAutoAdvance (σ : MState) (now : Int) : MState :=
  match σ.session, σ.profile with
  | some s, some p =>
      if s.stage = .profileCompletion ∧ p.missingFields.length = 0 then
        { σ with session := some (setSessionStage s .readyToStart now) }
      else σ
  | _, _ => σ

/-- `ingestResume` tail: profile accepted, fresh session scaffold
(`buildSessionScaffold`). -/
def ingestProfileStep (σ : MState) (profile : CandidateProfile)
    (sessionId : String) (now : Int) : MState :=
  let stage : SessionStage :=
    if profile.missingFields.length > 0 then .profileCompletion else .readyToStart
  { σ with
    profile := some profile
    session := some
      { id := sessionId
        candidateId := profile.id
        createdAt := now
        updatedAt := now
        stage := stage
        currentQuestionId := none
        questions := []
        questionOrder := []
        answers := []
        timers := []
        chat := []
        summary := none } }

/-- Thunk `resetSession` (`clearActiveSession`); the draft/marker reset is the
question-change effect of the view. -/
def resetStep (σ : MState) : MState :=
  let hadCurrent := (σ.session.bind (·.currentQuestionId)).isSome
  { σ with
    profile := none
    session := none
    answerDraft := if hadCurrent then "" else σ.answerDraft
    autoMarker := if hadCurrent then none else σ.autoMarker }

/-! ## The event system -/

inductive MEvent where
  | tick (now : Int)
  | setDraft (text : String)
  | beginManual (now : Int)
  | beginAuto (now : Int)
  | finish (evalAI : EvalAI) (summaryAI : Option ParsedSummary) (now : Int)
  | beginSession (questions : List InterviewQuestion) (now : Int)
  | editProfile (field : RequiredProfileField) (value : String)
  | advanceStage (now : Int)
  | ingest (profile : CandidateProfile) (sessionId : String) (now : Int)
  | reset

/-- The serialized mutation step: each event is one synchronous block of the
runtime. -/
def applyEvent (nameCmp : String → String → Int) (σ : MState) : MEvent → MState
  | .tick now => tickStep σ now
  | .setDraft text => { σ with answerDraft := text }
  | .beginManual now => (handleSubmitBegin σ σ.answerDraft false now).2
  | .beginAuto now => autoSubmitStep σ now
  | .finish evalAI summaryAI now => finishSubmit nameCmp σ evalAI summaryAI now
  | .beginSession questions now => (beginInterview σ questions now).2
  | .editProfile field value => updateProfileField σ field value
  | .advanceStage now => profileAutoAdvance σ now
  | .ingest profile sessionId now => ingestProfileStep σ profile sessionId now
  | .reset => resetStep σ

def applyEvents (nameCmp : String → String → Int) (σ : MState)
    (es : List MEvent) : MState :=
  es.foldl (applyEvent nameCmp) σ

/-- The events of the timer/submission race considered by the spec:
scheduler ticks, typing, and the two halves of a submission. -/
def MEvent.isTickOrSubmit : MEvent → Bool
  | .tick _ => true
  | .setDraft _ => true
  | .beginManual _ => true
  | .beginAuto _ => true
  | .finish _ _ _ => true
  | _ => false

/-- The answers map of the live session, viewed from the store. -/
def answersOf (σ : MState) (q : String) : Option AnswerRecord :=
  σ.session.bind fun s => recGet s.answers q

/-! ## Basic facts about the association-list maps -/

theorem recGet_recSet {α : Type} (m : List (String × α)) (k : String) (v : α)
    (k' : String) : recGet (recSet m k v) k' = if k = k' then some v else recGet m k' := by
  induction m with
  | nil => simp [recGet, recSet]
  | cons hd tl ih =>
      obtain ⟨k1, v1⟩ := hd
      by_cases h1 : k1 = k
      · subst h1
        by_cases h2 : k1 = k'
        · subst h2
          simp [recSet, recGet]
        · simp [recSet, recGet, h2]
      · simp only [recSet, if_neg h1]
        by_cases h2 : k1 = k'
        · subst h2
          simp [recGet, h1, Ne.symm h1]
        · simp [recGet, h1, h2, ih]

theorem recGet_isSome_recSet {α : Type} (m : List (String × α)) (k : String) (v : α)
    (q : String) (h : (recGet m q).isSome) : (recGet (recSet m k v) q).isSome := by
  rw [recGet_recSet]
  by_cases hk : k = q <;> simp [hk, h]

theorem keys_recSet {α : Type} (m : List (String × α)) (k : String) (v : α) :
    (recSet m k v).map Prod.fst =
      if (recGet m k).isSome then m.map Prod.fst else m.map Prod.fst ++ [k] := by
  induction m with
  | nil => simp [recGet, recSet]
  | cons hd tl ih =>
      obtain ⟨k1, v1⟩ := hd
      by_cases h1 : k1 = k
      · subst h1
        simp [recSet, recGet]
      · simp only [recSet, if_neg h1, recGet, List.map_cons, ih]
        split <;> simp

theorem recGet_isSome_of_mem_keys {α : Type} (m : List (String × α)) (k : String)
    (h : k ∈ m.map Prod.fst) : (recGet m k).isSome := by
  induction m with
  | nil => simp at h
  | cons hd tl ih =>
      obtain ⟨k1, v1⟩ := hd
      simp only [List.map_cons, List.mem_cons] at h
      by_cases hk : k1 = k
      · simp [recGet, hk]
      · rcases h with h | h
        · exact absurd h.symm hk
        · simp [recGet, hk, ih h]

theorem nodup_keys_recSet {α : Type} (m : List (String × α)) (k : String) (v : α)
    (h : (m.map Prod.fst).Nodup) : ((recSet m k v).map Prod.fst).Nodup := by
  rw [keys_recSet]
  split
  · exact h
  · rename_i hnone
    refine h.append (by simp) ?_
    intro a ha hb
    simp at hb
    subst hb
    exact absurd (recGet_isSome_of_mem_keys m a ha) (by simpa using hnone)

theorem recGet_none_of_not_mem_keys {α : Type} (m : List (String × α)) (k : String)
    (h : k ∉ m.map Prod.fst) : recGet m k = none := by
  induction m with
  | nil => rfl
  | cons hd tl ih =>
      obtain ⟨k1, v1⟩ := hd
      simp only [List.map_cons, List.mem_cons] at h
      push_neg at h
      simp [recGet, Ne.symm h.1, ih h.2]

/-! ## Helper facts about list positions -/

theorem get_not_mem_take {α : Type} (l : List α) (k : Nat) (h : k < l.length)
    (hn : l.Nodup) : l.get ⟨k, h⟩ ∉ l.take k := by
  intro hmem
  rw [List.mem_iff_get] at hmem
  obtain ⟨⟨j, hj⟩, hje⟩ := hmem
  have hjk : j < k := by
    have h2 := hj
    rw [List.length_take] at h2
    omega
  have hjl : j < l.length := by omega
  rw [List.get_eq_getElem] at hje
  rw [List.getElem_take l] at hje
  have : j = k := hn.getElem_inj_iff.mp hje
  omega

theorem mem_take_succ_iff {α : Type} (l : List α) (k : Nat) (h : k < l.length)
    (q : α) : q ∈ l.take (k + 1) ↔ q ∈ l.take k ∨ q = l.get ⟨k, h⟩ := by
  constructor
  · intro hq
    rw [List.take_succ, List.getElem?_eq_getElem h] at hq
    rcases List.mem_append.mp hq with h1 | h1
    · exact Or.inl h1
    · simp only [Option.toList_some, List.mem_singleton] at h1
      exact Or.inr (by rw [List.get_eq_getElem]; exact h1)
  · intro hq
    rw [List.take_succ, List.getElem?_eq_getElem h]
    rcases hq with h1 | h1
    · exact List.mem_append.mpr (Or.inl h1)
    · refine List.mem_append.mpr (Or.inr ?_)
      rw [List.get_eq_getElem] at h1
      simp [h1]

/-! ## The reachability invariant of the submission pipeline -/

/-- The answered questions are exactly the first `k` entries of the order. -/
def answeredUpTo (s : InterviewSession) (k : Nat) : Prop :=
  ∀ q : String, (recGet s.answers q).isSome ↔ q ∈ s.questionOrder.take k

/-- Structural invariant of a live session reachable through the pipeline. -/
structure SessionInv (s : InterviewSession) : Prop where
  orderNodup : s.questionOrder.Nodup
  answersKeysNodup : (s.answers.map Prod.fst).Nodup
  questionsTotal : ∀ q ∈ s.questionOrder, (recGet s.questions q).isSome
  stageCur : s.stage = SessionStage.questioning ↔ s.currentQuestionId.isSome
  progress : ∃ k, k ≤ s.questionOrder.length ∧ answeredUpTo s k ∧
    ∀ q, s.currentQuestionId = some q → s.questionOrder.get? k = some q

/-- Invariant of the whole model state. -/
structure Inv (σ : MState) : Prop where
  sessionInv : ∀ s, σ.session = some s → SessionInv s
  pendingCur : ∀ pend s, σ.inFlight = some pend → σ.session = some s →
    s.currentQuestionId = some pend.questionId

/-- A session transformation leaving order, answers, stage and pointer intact
and only growing the question map preserves the session invariant. -/
theorem sessionInv_of_eqs (s s' : InterviewSession)
    (horder : s'.questionOrder = s.questionOrder)
    (hans : s'.answers = s.answers)
    (hq : ∀ q, (recGet s.questions q).isSome → (recGet s'.questions q).isSome)
    (hstage : s'.stage = s.stage)
    (hcur : s'.currentQuestionId = s.currentQuestionId)
    (h : SessionInv s) : SessionInv s' := by
  refine ⟨?_, ?_, ?_, ?_, ?_⟩
  · rw [horder]; exact h.orderNodup
  · rw [hans]; exact h.answersKeysNodup
  · intro q hqmem
    rw [horder] at hqmem
    exact hq q (h.questionsTotal q hqmem)
  · rw [hstage, hcur]; exact h.stageCur
  · obtain ⟨k, hk, hans2, hcur2⟩ := h.progress
    refine ⟨k, ?_, ?_, ?_⟩
    · rw [horder]; exact hk
    · simp only [answeredUpTo] at hans2 ⊢
      intro q
      rw [hans, horder]
      exact hans2 q
    · intro q hq2
      rw [hcur] at hq2
      rw [horder]
      exact hcur2 q hq2

/-! ## Field-preservation facts for the session reducers -/

theorem ensureQuestionTimer_questionOrder (s : InterviewSession) (qid : String)
    (d : QuestionDifficulty) (dur : Int) :
    (ensureQuestionTimer s qid d dur).questionOrder = s.questionOrder := by
  unfold ensureQuestionTimer
  dsimp only
  split <;> split <;> rfl

theorem ensureQuestionTimer_answers (s : InterviewSession) (qid : String)
    (d : QuestionDifficulty) (dur : Int) :
    (ensureQuestionTimer s qid d dur).answers = s.answers := by
  unfold ensureQuestionTimer
  dsimp only
  split <;> split <;> rfl

theorem ensureQuestionTimer_stage (s : InterviewSession) (qid : String)
    (d : QuestionDifficulty) (dur : Int) :
    (ensureQuestionTimer s qid d dur).stage = s.stage := by
  unfold ensureQuestionTimer
  dsimp only
  split <;> split <;> rfl

theorem ensureQuestionTimer_currentQuestionId (s : InterviewSession) (qid : String)
    (d : QuestionDifficulty) (dur : Int) :
    (ensureQuestionTimer s qid d dur).currentQuestionId = s.currentQuestionId := by
  unfold ensureQuestionTimer
  dsimp only
  split <;> split <;> rfl

theorem ensureQuestionTimer_questions_isSome (s : InterviewSession) (qid : String)
    (d : QuestionDifficulty) (dur : Int) (q : String)
    (h : (recGet s.questions q).isSome) :
    (recGet (ensureQuestionTimer s qid d dur).questions q).isSome := by
  unfold ensureQuestionTimer
  dsimp only
  split
  · split
    · exact h
    · exact recGet_isSome_recSet _ _ _ _ h
  · split
    · exact h
    · exact recGet_isSome_recSet _ _ _ _ h

theorem setCurrentQuestion_questionOrder (s : InterviewSession) (qid : Option String)
    (now : Int) : (setCurrentQuestion s qid now).questionOrder = s.questionOrder := by
  unfold setCurrentQuestion
  rcases qid with _ | q
  · rfl
  · exact ensureQuestionTimer_questionOrder _ _ _ _

theorem setCurrentQuestion_answers (s : InterviewSession) (qid : Option String)
    (now : Int) : (setCurrentQuestion s qid now).answers = s.answers := by
  unfold setCurrentQuestion
  rcases qid with _ | q
  · rfl
  · exact ensureQuestionTimer_answers _ _ _ _

theorem setCurrentQuestion_stage (s : InterviewSession) (qid : Option String)
    (now : Int) : (setCurrentQuestion s qid now).stage = s.stage := by
  unfold setCurrentQuestion
  rcases qid with _ | q
  · rfl
  · exact ensureQuestionTimer_stage _ _ _ _

theorem setCurrentQuestion_currentQuestionId (s : InterviewSession) (qid : Option String)
    (now : Int) : (setCurrentQuestion s qid now).currentQuestionId = qid := by
  unfold setCurrentQuestion
  rcases qid with _ | q
  · rfl
  · exact (ensureQuestionTimer_currentQuestionId _ _ _ _).trans rfl

theorem setCurrentQuestion_questions_isSome (s : InterviewSession) (qid : Option String)
    (now : Int) (q : String) (h : (recGet s.questions q).isSome) :
    (recGet (setCurrentQuestion s qid now).questions q).isSome := by
  unfold setCurrentQuestion
  rcases qid with _ | q2
  · exact h
  · exact ensureQuestionTimer_questions_isSome _ _ _ _ _ h

/-! ## Preservation of the invariant by the tick/submission events -/

theorem inv_setDraft (σ : MState) (text : String) (h : Inv σ) :
    Inv { σ with answerDraft := text } :=
  ⟨h.sessionInv, h.pendingCur⟩

theorem inv_tickStep (σ : MState) (now : Int) (h : Inv σ) : Inv (tickStep σ now) := by
  unfold tickStep
  split
  · exact h
  next s hs =>
    split
    · exact h
    next qid hc =>
      split
      · exact h
      next t ht =>
        split
        · exact h
        next hr =>
          constructor
          · intro s' hs'
            simp only [Option.some_inj] at hs'
            subst hs'
            exact sessionInv_of_eqs s _ rfl rfl (fun _ hq => hq) rfl rfl (h.sessionInv s hs)
          · intro pend s' hp hs'
            simp only [Option.some_inj] at hs'
            subst hs'
            show s.currentQuestionId = some pend.questionId
            exact h.pendingCur pend s hp hs

theorem inv_handleSubmitBegin (σ : MState) (draft : String) (autoSubmit : Bool)
    (now : Int) (h : Inv σ) : Inv (handleSubmitBegin σ draft autoSubmit now).2 := by
  unfold handleSubmitBegin
  split
  · exact h
  next s hs =>
    split
    · exact h
    next qid hc =>
      split
      · exact h
      split
      · exact h
      split
      · exact h
      split
      · exact h
      next p hp =>
        split
        · exact h
        next question hq =>
          constructor
          · intro s' hs'
            simp only [Option.some_inj] at hs'
            subst hs'
            exact sessionInv_of_eqs s _ rfl rfl (fun _ hx => hx) rfl rfl
              (h.sessionInv s hs)
          · intro pend s' hpend hs'
            simp only [Option.some_inj] at hpend hs'
            subst hpend
            subst hs'
            show s.currentQuestionId = some qid
            exact hc

/-! Projection lemmas used to normalize the session after reducer chains. -/

@[simp] theorem updateTimerState_questionOrder (s : InterviewSession)
    (t : QuestionTimerState) (now : Int) :
    (updateTimerState s t now).questionOrder = s.questionOrder := rfl

@[simp] theorem updateTimerState_answers (s : InterviewSession)
    (t : QuestionTimerState) (now : Int) :
    (updateTimerState s t now).answers = s.answers := rfl

@[simp] theorem updateTimerState_questions (s : InterviewSession)
    (t : QuestionTimerState) (now : Int) :
    (updateTimerState s t now).questions = s.questions := rfl

@[simp] theorem updateTimerState_stage (s : InterviewSession)
    (t : QuestionTimerState) (now : Int) :
    (updateTimerState s t now).stage = s.stage := rfl

@[simp] theorem updateTimerState_currentQuestionId (s : InterviewSession)
    (t : QuestionTimerState) (now : Int) :
    (updateTimerState s t now).currentQuestionId = s.currentQuestionId := rfl

@[simp] theorem addChatMessage_fst_questionOrder (s : InterviewSession) (c : Nat)
    (sender : ChatSender) (body : String) (t : Int) (m : Option MsgMeta) :
    ((addChatMessage s c sender body t m).1).questionOrder = s.questionOrder := rfl

@[simp] theorem addChatMessage_fst_answers (s : InterviewSession) (c : Nat)
    (sender : ChatSender) (body : String) (t : Int) (m : Option MsgMeta) :
    ((addChatMessage s c sender body t m).1).answers = s.answers := rfl

@[simp] theorem addChatMessage_fst_questions (s : InterviewSession) (c : Nat)
    (sender : ChatSender) (body : String) (t : Int) (m : Option MsgMeta) :
    ((addChatMessage s c sender body t m).1).questions = s.questions := rfl

@[simp] theorem addChatMessage_fst_stage (s : InterviewSession) (c : Nat)
    (sender : ChatSender) (body : String) (t : Int) (m : Option MsgMeta) :
    ((addChatMessage s c sender body t m).1).stage = s.stage := rfl

@[simp] theorem addChatMessage_fst_currentQuestionId (s : InterviewSession) (c : Nat)
    (sender : ChatSender) (body : String) (t : Int) (m : Option MsgMeta) :
    ((addChatMessage s c sender body t m).1).currentQuestionId = s.currentQuestionId := rfl

@[simp] theorem recordAnswer_answers (s : InterviewSession) (r : AnswerRecord)
    (now : Int) : (recordAnswer s r now).answers = recSet s.answers r.questionId r := rfl

@[simp] theorem recordAnswer_questionOrder (s : InterviewSession) (r : AnswerRecord)
    (now : Int) : (recordAnswer s r now).questionOrder = s.questionOrder := rfl

@[simp] theorem recordAnswer_questions (s : InterviewSession) (r : AnswerRecord)
    (now : Int) : (recordAnswer s r now).questions = s.questions := rfl

@[simp] theorem recordAnswer_stage (s : InterviewSession) (r : AnswerRecord)
    (now : Int) : (recordAnswer s r now).stage = s.stage := rfl

@[simp] theorem recordAnswer_currentQuestionId (s : InterviewSession) (r : AnswerRecord)
    (now : Int) : (recordAnswer s r now).currentQuestionId = s.currentQuestionId := rfl

@[simp] theorem setSessionStage_stage (s : InterviewSession) (st : SessionStage)
    (now : Int) : (setSessionStage s st now).stage = st := rfl

@[simp] theorem setSessionStage_questionOrder (s : InterviewSession) (st : SessionStage)
    (now : Int) : (setSessionStage s st now).questionOrder = s.questionOrder := rfl

@[simp] theorem setSessionStage_answers (s : InterviewSession) (st : SessionStage)
    (now : Int) : (setSessionStage s st now).answers = s.answers := rfl

@[simp] theorem setSessionStage_questions (s : InterviewSession) (st : SessionStage)
    (now : Int) : (setSessionStage s st now).questions = s.questions := rfl

@[simp] theorem setSessionStage_currentQuestionId (s : InterviewSession) (st : SessionStage)
    (now : Int) : (setSessionStage s st now).currentQuestionId = s.currentQuestionId := rfl

@[simp] theorem setInterviewSummary_stage (s : InterviewSession) (x : InterviewSummary)
    (now : Int) : (setInterviewSummary s x now).stage = s.stage := rfl

@[simp] theorem setInterviewSummary_questionOrder (s : InterviewSession) (x : InterviewSummary)
    (now : Int) : (setInterviewSummary s x now).questionOrder = s.questionOrder := rfl

@[simp] theorem setInterviewSummary_answers (s : InterviewSession) (x : InterviewSummary)
    (now : Int) : (setInterviewSummary s x now).answers = s.answers := rfl

@[simp] theorem setInterviewSummary_questions (s : InterviewSession) (x : InterviewSummary)
    (now : Int) : (setInterviewSummary s x now).questions = s.questions := rfl

@[simp] theorem setInterviewSummary_currentQuestionId (s : InterviewSession)
    (x : InterviewSummary) (now : Int) :
    (setInterviewSummary s x now).currentQuestionId = s.currentQuestionId := rfl

attribute [simp] setCurrentQuestion_questionOrder setCurrentQuestion_answers
  setCurrentQuestion_stage setCurrentQuestion_currentQuestionId

@[simp] theorem setCurrentQuestion_none_questions (s : InterviewSession) (now : Int) :
    (setCurrentQuestion s none now).questions = s.questions := rfl

theorem finishSubmit_inv_mono (nameCmp : String → String → Int) (σ : MState)
    (evalAI : EvalAI) (summaryAI : Option ParsedSummary) (now : Int) (h : Inv σ) :
    Inv (finishSubmit nameCmp σ evalAI summaryAI now) ∧
      ∀ q r, answersOf σ q = some r →
        answersOf (finishSubmit nameCmp σ evalAI summaryAI now) q = some r := by
  unfold finishSubmit
  split
  · exact ⟨h, fun _ _ hq => hq⟩
  next pend hpend =>
    split
    next evaluationScore evaluationFeedback heval =>
      split
      next hsess =>
        refine ⟨⟨?_, ?_⟩, ?_⟩
        · intro s' hs'
          have hs2 : σ.session = some s' := hs'
          rw [hsess] at hs2
          cases hs2
        · intro pend' s' hp' hs'
          have hp2 : (none : Option PendingSubmit) = some pend' := hp'
          cases hp2
        · intro q r hq
          unfold answersOf at hq
          rw [hsess] at hq
          cases hq
      next s hsess =>
        have hSI := h.sessionInv s hsess
        have hcur : s.currentQuestionId = some pend.questionId := h.pendingCur pend s hpend hsess
        obtain ⟨k, hk, hansUp, hcurk⟩ := hSI.progress
        obtain ⟨hklt, hgetk⟩ := List.get?_eq_some.mp (hcurk pend.questionId hcur)
        have hnone : recGet s.answers pend.questionId = none := by
          rcases hxx : recGet s.answers pend.questionId with _ | v
          · rfl
          · exfalso
            have hx2 : (recGet s.answers pend.questionId).isSome := by rw [hxx]; rfl
            have hmem := (hansUp pend.questionId).mp hx2
            rw [← hgetk] at hmem
            exact get_not_mem_take _ _ _ hSI.orderNodup hmem
        have hidx : List.indexOf pend.questionId s.questionOrder = k := by
          rw [← hgetk]
          exact List.get_indexOf hSI.orderNodup ⟨k, hklt⟩
        have hstagequest : s.stage = SessionStage.questioning :=
          hSI.stageCur.mpr (by rw [hcur]; rfl)
        simp only [addChatMessage_fst_questionOrder, recordAnswer_questionOrder,
          addChatMessage_fst_answers, recordAnswer_answers,
          addChatMessage_fst_questions, recordAnswer_questions,
          addChatMessage_fst_stage, recordAnswer_stage,
          addChatMessage_fst_currentQuestionId, recordAnswer_currentQuestionId, hidx]
        split
        next hlt =>
          -- a next question exists
          split
          next hqnone =>
            exfalso
            have hmem : s.questionOrder.get ⟨k + 1, hlt⟩ ∈ s.questionOrder :=
              List.get_mem s.questionOrder (k + 1) hlt
            have hx := hSI.questionsTotal _ hmem
            rw [hqnone] at hx
            cases hx
          next nextQ hqsome =>
            refine ⟨⟨?_, ?_⟩, ?_⟩
            · intro s' hs'
              obtain rfl := (Option.some.inj hs').symm
              refine ⟨?_, ?_, ?_, ?_, ?_⟩
              · simpa using hSI.orderNodup
              · simpa using nodup_keys_recSet _ _ _ hSI.answersKeysNodup
              · intro q hqmem
                simp only [addChatMessage_fst_questionOrder, updateTimerState_questionOrder,
                  setCurrentQuestion_questionOrder, recordAnswer_questionOrder] at hqmem
                simp only [addChatMessage_fst_questions, updateTimerState_questions]
                refine setCurrentQuestion_questions_isSome _ _ _ _ ?_
                simp only [addChatMessage_fst_questions, recordAnswer_questions]
                exact hSI.questionsTotal q hqmem
              · simp only [addChatMessage_fst_stage, updateTimerState_stage,
                  setCurrentQuestion_stage, recordAnswer_stage,
                  addChatMessage_fst_currentQuestionId, updateTimerState_currentQuestionId,
                  setCurrentQuestion_currentQuestionId]
                rw [hstagequest]
                simp
              · refine ⟨k + 1, ?_, ?_, ?_⟩
                · simp only [addChatMessage_fst_questionOrder, updateTimerState_questionOrder,
                    setCurrentQuestion_questionOrder, recordAnswer_questionOrder]
                  omega
                · simp only [answeredUpTo, addChatMessage_fst_answers, updateTimerState_answers,
                    setCurrentQuestion_answers, recordAnswer_answers,
                    addChatMessage_fst_questionOrder, updateTimerState_questionOrder,
                    setCurrentQuestion_questionOrder, recordAnswer_questionOrder]
                  intro q
                  rw [recGet_recSet]
                  by_cases hqe : pend.questionId = q
                  · rw [if_pos hqe, mem_take_succ_iff s.questionOrder k hklt]
                    constructor
                    · intro _
                      exact Or.inr (by rw [hgetk, ← hqe])
                    · intro _
                      rfl
                  · rw [if_neg hqe, mem_take_succ_iff s.questionOrder k hklt, hansUp q]
                    constructor
                    · exact Or.inl
                    · rintro (hx | hx)
                      · exact hx
                      · exfalso
                        rw [hgetk] at hx
                        exact hqe hx.symm
                · intro q hq5
                  simp only [addChatMessage_fst_currentQuestionId,
                    updateTimerState_currentQuestionId, setCurrentQuestion_currentQuestionId]
                    at hq5
                  obtain rfl := Option.some.inj hq5
                  simp only [addChatMessage_fst_questionOrder, updateTimerState_questionOrder,
                    setCurrentQuestion_questionOrder, recordAnswer_questionOrder]
                  exact List.get?_eq_get hlt
            · intro pend' s' hp' hs'
              have hp2 : (none : Option PendingSubmit) = some pend' := hp'
              cases hp2
            · intro q r hq
              unfold answersOf at hq ⊢
              rw [hsess] at hq
              rw [Option.some_bind] at hq
              have hne : pend.questionId ≠ q := by
                intro he
                rw [← he, hnone] at hq
                cases hq
              simp only [Option.some_bind, addChatMessage_fst_answers,
                updateTimerState_answers, setCurrentQuestion_answers, recordAnswer_answers]
              rw [recGet_recSet, if_neg hne]
              exact hq
        next hlt =>
          -- final question: finalization
          simp only [finalizeInterview]
          refine ⟨⟨?_, ?_⟩, ?_⟩
          · intro s' hs'
            obtain rfl := (Option.some.inj hs').symm
            refine ⟨?_, ?_, ?_, ?_, ?_⟩
            · simpa using hSI.orderNodup
            · simpa using nodup_keys_recSet _ _ _ hSI.answersKeysNodup
            · intro q hqmem
              simp only [addChatMessage_fst_questionOrder, setInterviewSummary_questionOrder,
                setSessionStage_questionOrder, setCurrentQuestion_questionOrder,
                recordAnswer_questionOrder] at hqmem
              simp only [addChatMessage_fst_questions, setInterviewSummary_questions,
                setSessionStage_questions, setCurrentQuestion_none_questions,
                recordAnswer_questions]
              exact hSI.questionsTotal q hqmem
            · simp only [addChatMessage_fst_stage, setInterviewSummary_stage,
                setSessionStage_stage, addChatMessage_fst_currentQuestionId,
                setInterviewSummary_currentQuestionId, setSessionStage_currentQuestionId,
                setCurrentQuestion_currentQuestionId]
              simp
            · refine ⟨k + 1, ?_, ?_, ?_⟩
              · simp only [addChatMessage_fst_questionOrder, setInterviewSummary_questionOrder,
                  setSessionStage_questionOrder, setCurrentQuestion_questionOrder,
                  recordAnswer_questionOrder]
                omega
              · simp only [answeredUpTo, addChatMessage_fst_answers, setInterviewSummary_answers,
                  setSessionStage_answers, setCurrentQuestion_answers, recordAnswer_answers,
                  addChatMessage_fst_questionOrder, setInterviewSummary_questionOrder,
                  setSessionStage_questionOrder, setCurrentQuestion_questionOrder,
                  recordAnswer_questionOrder]
                intro q
                rw [recGet_recSet]
                by_cases hqe : pend.questionId = q
                · rw [if_pos hqe, mem_take_succ_iff s.questionOrder k hklt]
                  constructor
                  · intro _
                    exact Or.inr (by rw [hgetk, ← hqe])
                  · intro _
                    rfl
                · rw [if_neg hqe, mem_take_succ_iff s.questionOrder k hklt, hansUp q]
                  constructor
                  · exact Or.inl
                  · rintro (hx | hx)
                    · exact hx
                    · exfalso
                      rw [hgetk] at hx
                      exact hqe hx.symm
              · intro q hq5
                simp only [addChatMessage_fst_currentQuestionId,
                  setInterviewSummary_currentQuestionId, setSessionStage_currentQuestionId,
                  setCurrentQuestion_currentQuestionId] at hq5
                cases hq5
          · intro pend' s' hp' hs'
            have hp2 : (none : Option PendingSubmit) = some pend' := hp'
            cases hp2
          · intro q r hq
            unfold answersOf at hq ⊢
            rw [hsess] at hq
            rw [Option.some_bind] at hq
            have hne : pend.questionId ≠ q := by
              intro he
              rw [← he, hnone] at hq
              cases hq
            simp only [Option.some_bind, addChatMessage_fst_answers,
              setInterviewSummary_answers, setSessionStage_answers,
              setCurrentQuestion_answers, recordAnswer_answers]
            rw [recGet_recSet, if_neg hne]
            exact hq

theorem inv_autoSubmitStep (σ : MState) (now : Int) (h : Inv σ) :
    Inv (autoSubmitStep σ now) := by
  unfold autoSubmitStep
  split
  · exact h
  next s hs =>
    split
    · exact h
    next qid hc =>
      split
      · exact h
      next t ht =>
        split
        · exact inv_handleSubmitBegin _ _ _ _ ⟨h.sessionInv, h.pendingCur⟩
        · exact h

theorem answersOf_handleSubmitBegin (σ : MState) (draft : String) (autoSubmit : Bool)
    (now : Int) (q : String) :
    answersOf (handleSubmitBegin σ draft autoSubmit now).2 q = answersOf σ q := by
  unfold handleSubmitBegin
  split
  · rfl
  next s hs =>
    split
    · rfl
    next qid hc =>
      split
      · rfl
      split
      · rfl
      split
      · rfl
      split
      · rfl
      next p hp =>
        split
        · rfl
        next question hq =>
          unfold answersOf
          rw [hs]
          rfl

theorem answersOf_autoSubmitStep (σ : MState) (now : Int) (q : String) :
    answersOf (autoSubmitStep σ now) q = answersOf σ q := by
  unfold autoSubmitStep
  split
  · rfl
  next s hs =>
    split
    · rfl
    next qid hc =>
      split
      · rfl
      next t ht =>
        split
        · exact answersOf_handleSubmitBegin _ _ _ _ _
        · rfl

theorem answersOf_tickStep (σ : MState) (now : Int) (q : String) :
    answersOf (tickStep σ now) q = answersOf σ q := by
  unfold tickStep
  split
  · rfl
  next s hs =>
    split
    · rfl
    next qid hc =>
      split
      · rfl
      next t ht =>
        split
        · rfl
        · unfold answersOf
          rw [hs]
          rfl

theorem inv_applyEvent (nameCmp : String → String → Int) (σ : MState) (e : MEvent)
    (he : e.isTickOrSubmit = true) (h : Inv σ) : Inv (applyEvent nameCmp σ e) := by
  cases e with
  | tick now => exact inv_tickStep σ now h
  | setDraft text => exact inv_setDraft σ text h
  | beginManual now => exact inv_handleSubmitBegin σ σ.answerDraft false now h
  | beginAuto now => exact inv_autoSubmitStep σ now h
  | finish a b now => exact (finishSubmit_inv_mono nameCmp σ a b now h).1
  | beginSession qs now => simp [MEvent.isTickOrSubmit] at he
  | editProfile f v => simp [MEvent.isTickOrSubmit] at he
  | advanceStage now => simp [MEvent.isTickOrSubmit] at he
  | ingest p sid now => simp [MEvent.isTickOrSubmit] at he
  | reset => simp [MEvent.isTickOrSubmit] at he

theorem answersOf_mono_applyEvent (nameCmp : String → String → Int) (σ : MState)
    (e : MEvent) (he : e.isTickOrSubmit = true) (h : Inv σ) (q : String)
    (r : AnswerRecord) (hq : answersOf σ q = some r) :
    answersOf (applyEvent nameCmp σ e) q = some r := by
  cases e with
  | tick now => rw [applyEvent, answersOf_tickStep]; exact hq
  | setDraft text => exact hq
  | beginManual now => rw [applyEvent, answersOf_handleSubmitBegin]; exact hq
  | beginAuto now => rw [applyEvent, answersOf_autoSubmitStep]; exact hq
  | finish a b now => exact (finishSubmit_inv_mono nameCmp σ a b now h).2 q r hq
  | beginSession qs now => simp [MEvent.isTickOrSubmit] at he
  | editProfile f v => simp [MEvent.isTickOrSubmit] at he
  | advanceStage now => simp [MEvent.isTickOrSubmit] at he
  | ingest p sid now => simp [MEvent.isTickOrSubmit] at he
  | reset => simp [MEvent.isTickOrSubmit] at he

theorem inv_applyEvents (nameCmp : String → String → Int) (σ : MState)
    (es : List MEvent) (hall : ∀ e ∈ es, e.isTickOrSubmit = true) (h : Inv σ) :
    Inv (applyEvents nameCmp σ es) := by
  induction es generalizing σ with
  | nil => exact h
  | cons e tl ih =>
      exact ih (applyEvent nameCmp σ e) (fun x hx => hall x (List.mem_cons_of_mem _ hx))
        (inv_applyEvent nameCmp σ e (hall e (List.mem_cons_self e _)) h)

theorem answersOf_mono_applyEvents (nameCmp : String → String → Int) (σ : MState)
    (es : List MEvent) (hall : ∀ e ∈ es, e.isTickOrSubmit = true) (h : Inv σ)
    (q : String) (r : AnswerRecord) (hq : answersOf σ q = some r) :
    answersOf (applyEvents nameCmp σ es) q = some r := by
  induction es generalizing σ with
  | nil => exact hq
  | cons e tl ih =>
      exact ih (applyEvent nameCmp σ e) (fun x hx => hall x (List.mem_cons_of_mem _ hx))
        (inv_applyEvent nameCmp σ e (hall e (List.mem_cons_self e _)) h)
        (answersOf_mono_applyEvent nameCmp σ e (hall e (List.mem_cons_self e _)) h q r hq)

/-! ## Concrete fixtures used by the witnesses -/

/-- A trivial stand-in for `localeCompare` (any comparator works for the claims). -/
def cmp0 : String → String → Int := fun _ _ => 0

def exampleQ1 : InterviewQuestion :=
  { id := "q1", prompt := "p1", difficulty := .easy, category := "fundamentals",
    timeLimitSeconds := 20, guidance := none }

def exampleQ2 : InterviewQuestion :=
  { id := "q2", prompt := "p2", difficulty := .hard, category := "scaling",
    timeLimitSeconds := 120, guidance := none }

def exampleProfile : CandidateProfile :=
  { id := "cand-1", name := some "A", email := some "a@b.co", phone := some "5551234567",
    role := "Full Stack Engineer", resume := none, missingFields := [] }

/-- A session as it stands right after `beginInterview` activated `q1`. -/
def exampleSession : InterviewSession :=
  { id := "sess-1", candidateId := "cand-1", createdAt := 0, updatedAt := 1,
    stage := .questioning, currentQuestionId := some "q1",
    questions := [("q1", exampleQ1), ("q2", exampleQ2)],
    questionOrder := ["q1", "q2"],
    answers := [],
    timers := [("q1", { questionId := "q1", remainingSeconds := 20, isRunning := true,
                        lastTickAt := some 1, startedAt := some 1 }),
               ("q2", { questionId := "q2", remainingSeconds := 120, isRunning := false,
                        lastTickAt := none, startedAt := none })],
    chat := [], summary := none }

def exampleState : MState :=
  { profile := some exampleProfile, session := some exampleSession,
    candidates := candidatesInitialState, answerDraft := "", inFlight := none,
    autoMarker := none, msgCounter := 0 }

theorem inv_exampleState : Inv exampleState := by
  constructor
  · intro s hs
    obtain rfl := (Option.some.inj hs).symm
    refine ⟨by decide, by decide, by decide, by decide, 0, by decide, ?_, ?_⟩
    · intro q
      simp [answeredUpTo, exampleSession, recGet]
    · intro q hq
      obtain rfl := (Option.some.inj hq).symm
      rfl
  · intro pend s hp hs
    cases hp

def exampleEs1 : List MEvent :=
  [.setDraft "react", .beginManual 5, .finish (.parsed ⟨some 7, some "fb"⟩) none 6]

def exampleEs2 : List MEvent :=
  [.tick 7, .setDraft "more", .beginManual 8, .finish .unavailable none 9]

def exampleRecord : AnswerRecord :=
  { questionId := "q1", answer := "react", startedAt := 1, submittedAt := 5,
    elapsedSeconds := 0, autoSubmitted := false, aiScore := some 7, aiFeedback := some "fb" }

/-! ## The claims -/

/-- C1: over any interleaving of timer ticks and submissions (auto or manual)
starting from a pipeline-reachable state, the answers map stays keyed by
question id with duplicate-free keys (at most one `AnswerRecord` per question
id), an `AnswerRecord`, once written, never changes under any further such
events, and no submission for an already-answered question is ever in flight
again (the begin-phase guards — the frozen timer, the busy flag and the
per-question auto-submit marker — block it). -/
theorem spec_C1 (nameCmp : String → String → Int) (σ : MState) (hσ : Inv σ)
    (es1 es2 : List MEvent)
    (h1 : ∀ e ∈ es1, e.isTickOrSubmit = true)
    (h2 : ∀ e ∈ es2, e.isTickOrSubmit = true)
    (q : String) (r : AnswerRecord)
    (hr : answersOf (applyEvents nameCmp σ es1) q = some r) :
    answersOf (applyEvents nameCmp σ (es1 ++ es2)) q = some r ∧
    (∀ pend, (applyEvents nameCmp σ (es1 ++ es2)).inFlight = some pend →
       pend.questionId ≠ q) ∧
    (∀ sf, (applyEvents nameCmp σ (es1 ++ es2)).session = some sf →
       (sf.answers.map Prod.fst).Nodup) := by
  have happ : applyEvents nameCmp σ (es1 ++ es2)
      = applyEvents nameCmp (applyEvents nameCmp σ es1) es2 := by
    unfold applyEvents
    rw [List.foldl_append]
  have hinv1 := inv_applyEvents nameCmp σ es1 h1 hσ
  have hinv2 := inv_applyEvents nameCmp _ es2 h2 hinv1
  have hmono := answersOf_mono_applyEvents nameCmp _ es2 h2 hinv1 q r hr
  rw [happ]
  refine ⟨hmono, ?_, ?_⟩
  · intro pend hp heq
    rcases hsf : (applyEvents nameCmp (applyEvents nameCmp σ es1) es2).session with _ | sf
    · unfold answersOf at hmono
      rw [hsf] at hmono
      cases hmono
    · have hcur := hinv2.pendingCur pend sf hp hsf
      obtain ⟨k, hk, hansUp, hcurk⟩ := (hinv2.sessionInv sf hsf).progress
      obtain ⟨hklt, hgetk⟩ := List.get?_eq_some.mp (hcurk pend.questionId hcur)
      subst heq
      unfold answersOf at hmono
      rw [hsf, Option.some_bind] at hmono
      have hx2 : (recGet sf.answers pend.questionId).isSome := by
        rw [hmono]
        rfl
      have hmem := (hansUp _).mp hx2
      rw [← hgetk] at hmem
      exact get_not_mem_take _ _ _ (hinv2.sessionInv sf hsf).orderNodup hmem
  · intro sf hsf
    exact (hinv2.sessionInv sf hsf).answersKeysNodup

/-- Witness for C1: a concrete manual submission of `q1` followed by further
ticks and submissions; the record written for `q1` persists unchanged. -/
theorem spec_C1_witness :
    ((∀ e ∈ exampleEs1, e.isTickOrSubmit = true) ∧
     (∀ e ∈ exampleEs2, e.isTickOrSubmit = true) ∧
     answersOf (applyEvents cmp0 exampleState exampleEs1) "q1" = some exampleRecord) ∧
    (answersOf (applyEvents cmp0 exampleState (exampleEs1 ++ exampleEs2)) "q1"
        = some exampleRecord ∧
     (∀ pend, (applyEvents cmp0 exampleState (exampleEs1 ++ exampleEs2)).inFlight
        = some pend → pend.questionId ≠ "q1") ∧
     (∀ sf, (applyEvents cmp0 exampleState (exampleEs1 ++ exampleEs2)).session
        = some sf → (sf.answers.map Prod.fst).Nodup)) :=
  ⟨⟨by decide, by decide, by decide⟩,
   spec_C1 cmp0 exampleState inv_exampleState exampleEs1 exampleEs2
     (by decide) (by decide) "q1" exampleRecord (by decide)⟩

/-- C2: a manual (not auto-submitted) submission whose raw answer trims to the
empty string fails with the validation error and leaves the whole state —
session included — completely unmodified (no timer change, no transcript
entry, no answer record); an auto-submitted call bypasses the check and
begins, with the fixed sentinel placeholder as the candidate transcript body
while the captured answer text stays empty. -/
theorem spec_C2 (σ : MState) (s : InterviewSession) (q : String) (draft : String)
    (now : Int) (hs : σ.session = some s) (hc : s.currentQuestionId = some q)
    (hstage : s.stage = SessionStage.questioning) (hdraft : jsTrim draft = "") :
    handleSubmitBegin σ draft false now = (SubmitSignal.validationError, σ) ∧
    (∀ p question, σ.profile = some p → σ.inFlight = none →
      recGet s.questions q = some question →
      (handleSubmitBegin σ draft true now).1 = SubmitSignal.begun ∧
      (∃ pend, (handleSubmitBegin σ draft true now).2.inFlight = some pend ∧
        pend.answer = "") ∧
      (∃ s2, (handleSubmitBegin σ draft true now).2.session = some s2 ∧
        (s2.chat.map (·.body)).getLast? =
          some "(No response captured before the timer expired.)")) := by
  constructor
  · unfold handleSubmitBegin
    simp [hs, hc, hstage, hdraft]
  · intro p question hp hflight hq
    unfold handleSubmitBegin
    have hbusy : σ.inFlight.isSome = false := by rw [hflight]; rfl
    simp only [hs, hc, hstage, hdraft, hp, hflight, hq, hbusy]
    refine ⟨rfl, ⟨_, rfl, by simp [hdraft]⟩, ⟨_, rfl, ?_⟩⟩
    simp [addChatMessage, touchSession, submitChatBody, hdraft]

/-- Witness for C2 at a concrete whitespace-only draft. -/
theorem spec_C2_witness :
    (exampleState.session = some exampleSession ∧
     exampleSession.currentQuestionId = some "q1" ∧
     exampleSession.stage = SessionStage.questioning ∧
     jsTrim "   " = "") ∧
    (handleSubmitBegin exampleState "   " false 5 = (SubmitSignal.validationError, exampleState) ∧
    (∀ p question, exampleState.profile = some p → exampleState.inFlight = none →
      recGet exampleSession.questions "q1" = some question →
      (handleSubmitBegin exampleState "   " true 5).1 = SubmitSignal.begun ∧
      (∃ pend, (handleSubmitBegin exampleState "   " true 5).2.inFlight = some pend ∧
        pend.answer = "") ∧
      (∃ s2, (handleSubmitBegin exampleState "   " true 5).2.session = some s2 ∧
        (s2.chat.map (·.body)).getLast? =
          some "(No response captured before the timer expired.)"))) :=
  ⟨⟨rfl, rfl, rfl, by decide⟩,
   spec_C2 exampleState exampleSession "q1" "   " 5 rfl rfl rfl (by decide)⟩

def exampleQ60 : InterviewQuestion :=
  { id := "q60", prompt := "", difficulty := .medium, category := "",
    timeLimitSeconds := 60, guidance := none }

def exampleTimer45 : QuestionTimerState :=
  { questionId := "q60", remainingSeconds := 45, isRunning := true,
    lastTickAt := some 0, startedAt := some 0 }

def exampleTimer20 : QuestionTimerState :=
  { questionId := "q", remainingSeconds := 20, isRunning := true,
    lastTickAt := some 3, startedAt := some 0 }

/-- C3: with an active question of limit `timeLimitSeconds ≥ 0` and a timer
with `remainingSeconds = r ≥ 0`, the elapsed seconds captured by a submission
equal `clamp(timeLimitSeconds - r, 0, timeLimitSeconds)`; hence every recorded
`elapsedSeconds` lies in `[0, timeLimitSeconds]`; in particular `r = 45` out
of `60` gives `15`. -/
theorem spec_C3 (question : InterviewQuestion) (t : QuestionTimerState)
    (startedAt now : Int) (hr : 0 ≤ t.remainingSeconds)
    (hL : 0 ≤ question.timeLimitSeconds) :
    submitElapsedSeconds question (some t) startedAt now
      = intClamp (question.timeLimitSeconds - t.remainingSeconds) 0
          question.timeLimitSeconds ∧
    0 ≤ submitElapsedSeconds question (some t) startedAt now ∧
    submitElapsedSeconds question (some t) startedAt now ≤ question.timeLimitSeconds ∧
    submitElapsedSeconds exampleQ60 (some exampleTimer45) 0 45 = 15 := by
  unfold submitElapsedSeconds intClamp
  dsimp only
  refine ⟨?_, ?_, ?_, by decide⟩
  · rw [max_eq_right hr]
  · exact le_max_left _ _
  · exact max_le hL (min_le_left _ _)

/-- Witness for C3 at `timeLimitSeconds = 60`, `remainingSeconds = 45`. -/
theorem spec_C3_witness :
    ((0 : Int) ≤ 45 ∧ (0 : Int) ≤ 60) ∧
    (submitElapsedSeconds
        ({ id := "q60", prompt := "", difficulty := .medium, category := "",
           timeLimitSeconds := 60, guidance := none })
        (some ({ questionId := "q60", remainingSeconds := 45, isRunning := true,
                 lastTickAt := some 0, startedAt := some 0 })) 0 45
      = intClamp (60 - 45) 0 60 ∧
     (0 : Int) ≤ submitElapsedSeconds
        ({ id := "q60", prompt := "", difficulty := .medium, category := "",
           timeLimitSeconds := 60, guidance := none })
        (some ({ questionId := "q60", remainingSeconds := 45, isRunning := true,
                 lastTickAt := some 0, startedAt := some 0 })) 0 45 ∧
     submitElapsedSeconds
        ({ id := "q60", prompt := "", difficulty := .medium, category := "",
           timeLimitSeconds := 60, guidance := none })
        (some ({ questionId := "q60", remainingSeconds := 45, isRunning := true,
                 lastTickAt := some 0, startedAt := some 0 })) 0 45 ≤ 60 ∧
     submitElapsedSeconds
        ({ id := "q", prompt := "", difficulty := .medium, category := "",
           timeLimitSeconds := 60, guidance := none })
        (some ({ questionId := "q", remainingSeconds := 45, isRunning := true,
                 lastTickAt := some 0, startedAt := some 0 })) 0 45 = 15) :=
  ⟨⟨by decide, by decide⟩,
   spec_C3
     ({ id := "q60", prompt := "", difficulty := .medium, category := "",
        timeLimitSeconds := 60, guidance := none })
     ({ questionId := "q60", remainingSeconds := 45, isRunning := true,
        lastTickAt := some 0, startedAt := some 0 }) 0 45 (by decide) (by decide)⟩

/-- C4: a tick on a running timer with last tick at `l` consumes
`max(1, now - l)` whole seconds, sets `remainingSeconds` to
`max(0, remaining - max(1, now - l))`, stamps `lastTickAt = now`, and leaves
the timer running iff the new remainder is positive; a non-running (in
particular terminal) timer is never restarted by a tick. -/
theorem spec_C4 (t : QuestionTimerState) (now l : Int) (ht : t.isRunning = true)
    (hl : t.lastTickAt = some l) :
    (tickTimer t now).remainingSeconds
      = max 0 (t.remainingSeconds - max 1 (now - l)) ∧
    (tickTimer t now).lastTickAt = some now ∧
    ((tickTimer t now).isRunning = true ↔ 0 < (tickTimer t now).remainingSeconds) ∧
    (∀ t2 : QuestionTimerState, t2.isRunning = false → ∀ n, tickTimer t2 n = t2) := by
  have hterm : ∀ t2 : QuestionTimerState, t2.isRunning = false → ∀ n, tickTimer t2 n = t2 := by
    intro t2 h2 n
    unfold tickTimer
    rw [h2]
    simp
  have hpos : ¬ (max 1 (now - l) ≤ 0) := by
    have h1 := le_max_left 1 (now - l)
    omega
  have hred : tickTimer t now =
      { t with
        remainingSeconds := max 0 (t.remainingSeconds - max 1 (now - l))
        lastTickAt := some now
        isRunning := decide (0 < max 0 (t.remainingSeconds - max 1 (now - l))) } := by
    unfold tickTimer
    rw [ht, hl]
    have h1 : ((some l).orElse fun _ => t.startedAt).getD now = l := rfl
    rw [if_neg (by simp : ¬((true : Bool) = false)), h1, if_neg hpos]
  rw [hred]
  refine ⟨rfl, rfl, ?_, hterm⟩
  simp

/-- Witness for C4: a running timer ticked after a 7-second gap. -/
theorem spec_C4_witness :
    (exampleTimer20.isRunning = true ∧ exampleTimer20.lastTickAt = some 3) ∧
    ((tickTimer exampleTimer20 10).remainingSeconds
        = max 0 (exampleTimer20.remainingSeconds - max 1 (10 - 3)) ∧
     (tickTimer exampleTimer20 10).lastTickAt = some 10 ∧
     ((tickTimer exampleTimer20 10).isRunning = true ↔
      0 < (tickTimer exampleTimer20 10).remainingSeconds) ∧
     (∀ t2 : QuestionTimerState, t2.isRunning = false → ∀ n, tickTimer t2 n = t2)) :=
  ⟨⟨by decide, by decide⟩, spec_C4 exampleTimer20 10 3 (by decide) (by decide)⟩

/-- C5: when AI evaluation is unavailable, a blank (empty after trimming)
answer scores exactly 1 regardless of difficulty, and a non-blank answer
scores `base(difficulty) + keywordCount + min(1, length/400) * 3` clamped to
`[0, 10]`, where the base is 6/5/4 for hard/medium/easy and keywords are
matched case-insensitively. -/
theorem spec_C5 (a : String) (d : QuestionDifficulty) :
    (jsTrim a = "" → fallbackScore a d = 1) ∧
    (jsTrim a ≠ "" →
      fallbackScore a d =
        ratClamp (diffBase d + (keywordBoost a : Rat)
          + min 1 ((a.length : Rat) / 400) * 3) 0 10) := by
  constructor
  · intro h
    unfold fallbackScore
    rw [if_pos h]
  · intro h
    unfold fallbackScore ratClamp
    rw [if_neg h]
    dsimp only
    have hb : (0 : Rat) ≤ diffBase d := by
      cases d <;> norm_num [diffBase]
    have hkw : (0 : Rat) ≤ (keywordBoost a : Rat) := Nat.cast_nonneg _
    have hlf : (0 : Rat) ≤ min 1 ((a.length : Rat) / 400) :=
      le_min (by norm_num) (by positivity)
    have hnn : (0 : Rat) ≤ diffBase d + (keywordBoost a : Rat)
        + min 1 ((a.length : Rat) / 400) * 3 := by
      have h3 : (0 : Rat) ≤ min 1 ((a.length : Rat) / 400) * 3 :=
        mul_nonneg hlf (by norm_num)
      linarith
    rw [max_eq_right (le_min (by norm_num) hnn)]

/-- Witness for C5: blank answer scores 1; the keyword answer "react" follows
the clamped formula. -/
theorem spec_C5_witness :
    (jsTrim "  " = "" ∧ fallbackScore "  " QuestionDifficulty.easy = 1) ∧
    (jsTrim "react" ≠ "" ∧
     fallbackScore "react" QuestionDifficulty.hard =
       ratClamp (diffBase .hard + (keywordBoost "react" : Rat)
         + min 1 (("react".length : Rat) / 400) * 3) 0 10) :=
  ⟨⟨by decide, (spec_C5 "  " .easy).1 (by decide)⟩,
   ⟨by decide, (spec_C5 "react" .hard).2 (by decide)⟩⟩

/-- C6: a fallback-generated question plan takes, at position `i` of the
difficulty pattern, the prompt of the fixed bank of that difficulty at index
`i mod bankSize`, with `timeLimitSeconds = timerByDifficulty(difficulty)` and
the difficulty of the pattern; the six default positions against the 2-item banks
hit bank indices `[0,1,0,1,0,1]` in pattern order. -/
theorem spec_C6 (ids : Nat → String) (config : InterviewConfiguration) (i : Nat)
    (h : i < config.difficultyPattern.length) :
    (∃ hlen : i < (fallbackQuestions ids config).length,
      ((fallbackQuestions ids config).get ⟨i, hlen⟩).prompt =
        (FALLBACK_QUESTIONS (config.difficultyPattern.get ⟨i, h⟩)).getD
          (i % (FALLBACK_QUESTIONS (config.difficultyPattern.get ⟨i, h⟩)).length) "" ∧
      ((fallbackQuestions ids config).get ⟨i, hlen⟩).timeLimitSeconds =
        config.timerByDifficulty (config.difficultyPattern.get ⟨i, h⟩) ∧
      ((fallbackQuestions ids config).get ⟨i, hlen⟩).difficulty =
        config.difficultyPattern.get ⟨i, h⟩) ∧
    (DEFAULT_INTERVIEW_CONFIGURATION.difficultyPattern.enum.map
        (fun p => p.1 % (FALLBACK_QUESTIONS p.2).length)) = [0, 1, 0, 1, 0, 1] := by
  constructor
  · have hlen : i < (fallbackQuestions ids config).length := by
      unfold fallbackQuestions
      rw [List.length_mapIdx]
      exact h
    refine ⟨hlen, ?_, ?_, ?_⟩ <;>
      · unfold fallbackQuestions
        rw [List.get_mapIdx _ _ _ h]
  · decide

/-- Witness for C6 at position 2 of the default pattern (a medium question). -/
theorem spec_C6_witness :
    (2 < DEFAULT_INTERVIEW_CONFIGURATION.difficultyPattern.length) ∧
    ((∃ hlen : 2 < (fallbackQuestions (fun _ => "id") DEFAULT_INTERVIEW_CONFIGURATION).length,
      ((fallbackQuestions (fun _ => "id") DEFAULT_INTERVIEW_CONFIGURATION).get
          ⟨2, hlen⟩).prompt =
        (FALLBACK_QUESTIONS (DEFAULT_INTERVIEW_CONFIGURATION.difficultyPattern.get
            ⟨2, by decide⟩)).getD
          (2 % (FALLBACK_QUESTIONS (DEFAULT_INTERVIEW_CONFIGURATION.difficultyPattern.get
            ⟨2, by decide⟩)).length) "" ∧
      ((fallbackQuestions (fun _ => "id") DEFAULT_INTERVIEW_CONFIGURATION).get
          ⟨2, hlen⟩).timeLimitSeconds =
        DEFAULT_INTERVIEW_CONFIGURATION.timerByDifficulty
          (DEFAULT_INTERVIEW_CONFIGURATION.difficultyPattern.get ⟨2, by decide⟩) ∧
      ((fallbackQuestions (fun _ => "id") DEFAULT_INTERVIEW_CONFIGURATION).get
          ⟨2, hlen⟩).difficulty =
        DEFAULT_INTERVIEW_CONFIGURATION.difficultyPattern.get ⟨2, by decide⟩) ∧
     (DEFAULT_INTERVIEW_CONFIGURATION.difficultyPattern.enum.map
        (fun p => p.1 % (FALLBACK_QUESTIONS p.2).length)) = [0, 1, 0, 1, 0, 1]) :=
  ⟨by decide,
   spec_C6 (fun _ => "id") DEFAULT_INTERVIEW_CONFIGURATION 2 (by decide)⟩

/-- Stage/pointer coupling every live session of the runtime satisfies:
while questioning, some question is active. -/
def StageInvS (s : InterviewSession) : Prop :=
  s.stage = SessionStage.questioning → s.currentQuestionId.isSome

/-- Every model event preserves the stage/pointer coupling, so it holds in
every reachable state. -/
theorem stageInv_applyEvent (nameCmp : String → String → Int) (σ : MState) (e : MEvent)
    (h : ∀ s, σ.session = some s → StageInvS s) :
    ∀ s, (applyEvent nameCmp σ e).session = some s → StageInvS s := by
  cases e with
  | tick now =>
      show ∀ s, (tickStep σ now).session = some s → StageInvS s
      unfold tickStep
      split
      · exact h
      next s0 hs0 =>
        split
        · exact h
        next qid hc =>
          split
          · exact h
          next t ht =>
            split
            · exact h
            · intro s' hs'
              obtain rfl := (Option.some.inj hs').symm
              intro hq
              exact h s0 hs0 hq
  | setDraft text => exact h
  | beginManual now =>
      show ∀ s, (handleSubmitBegin σ σ.answerDraft false now).2.session = some s → StageInvS s
      unfold handleSubmitBegin
      split
      · exact h
      next s0 hs0 =>
        split
        · exact h
        next qid hc =>
          split
          · exact h
          split
          · exact h
          split
          · exact h
          split
          · exact h
          split
          · exact h
          next question hquestion =>
            intro s' hs'
            obtain rfl := (Option.some.inj hs').symm
            intro hq
            exact h s0 hs0 hq
  | beginAuto now =>
      show ∀ s, (autoSubmitStep σ now).session = some s → StageInvS s
      unfold autoSubmitStep
      split
      · exact h
      next s0 hs0 =>
        split
        · exact h
        next qid hc =>
          split
          · exact h
          next t ht =>
            split
            · -- delegates to handleSubmitBegin on the marker-updated state
              unfold handleSubmitBegin
              split
              · exact h
              next s1 hs1 =>
                split
                · exact h
                next qid1 hc1 =>
                  split
                  · exact h
                  split
                  · exact h
                  split
                  · exact h
                  split
                  · exact h
                  split
                  · exact h
                  next question hquestion =>
                    intro s' hs'
                    obtain rfl := (Option.some.inj hs').symm
                    intro hq
                    exact h s1 hs1 hq
            · exact h
  | finish a b now =>
      show ∀ s, (finishSubmit nameCmp σ a b now).session = some s → StageInvS s
      unfold finishSubmit
      split
      · exact h
      next pend hpend =>
        split
        next score feedback heval =>
          split
          next hsess =>
            intro s' hs'
            exact h s' hs'
          next s0 hsess =>
            simp only [addChatMessage_fst_questionOrder, recordAnswer_questionOrder,
              addChatMessage_fst_answers, recordAnswer_answers,
              addChatMessage_fst_questions, recordAnswer_questions,
              addChatMessage_fst_stage, recordAnswer_stage,
              addChatMessage_fst_currentQuestionId, recordAnswer_currentQuestionId]
            split
            next hlt =>
              split
              next hqnone =>
                intro s' hs'
                obtain rfl := (Option.some.inj hs').symm
                intro hq
                exact h s0 hsess hq
              next nextQ hqsome =>
                intro s' hs'
                obtain rfl := (Option.some.inj hs').symm
                intro hq
                simp only [addChatMessage_fst_currentQuestionId,
                  updateTimerState_currentQuestionId, setCurrentQuestion_currentQuestionId]
                rfl
            next hlt =>
              intro s' hs'
              obtain rfl := (Option.some.inj hs').symm
              intro hq
              exfalso
              simp only [finalizeInterview, addChatMessage_fst_stage,
                setInterviewSummary_stage, setSessionStage_stage] at hq
              exact absurd hq (by decide)
  | beginSession qs now =>
      show ∀ s, (beginInterview σ qs now).2.session = some s → StageInvS s
      unfold beginInterview
      split
      next p0 s0 hp0 hs0 =>
        split
        · exact h
        split
        · exact h
        split
        · exact h
        next q0 tl =>
          intro s' hs'
          obtain rfl := (Option.some.inj hs').symm
          intro hq
          simp only [addChatMessage_fst_currentQuestionId,
            updateTimerState_currentQuestionId, setCurrentQuestion_currentQuestionId]
          rfl
      · exact h
  | editProfile f v =>
      show ∀ s, (updateProfileField σ f v).session = some s → StageInvS s
      unfold updateProfileField
      split
      · exact h
      · exact h
  | advanceStage now =>
      show ∀ s, (profileAutoAdvance σ now).session = some s → StageInvS s
      unfold profileAutoAdvance
      split
      next s0 p0 hs0 hp0 =>
        split
        · intro s' hs'
          obtain rfl := (Option.some.inj hs').symm
          intro hq
          simp only [setSessionStage_stage] at hq
          exact absurd hq (by decide)
        · exact h
      · exact h
  | ingest p sid now =>
      show ∀ s, (ingestProfileStep σ p sid now).session = some s → StageInvS s
      unfold ingestProfileStep
      intro s' hs'
      obtain rfl := (Option.some.inj hs').symm
      intro hq
      exfalso
      simp only at hq
      split at hq <;> exact absurd hq (by decide)
  | reset =>
      show ∀ s, (resetStep σ).session = some s → StageInvS s
      unfold resetStep
      intro s' hs'
      exact Option.noConfusion hs'

/-- C7: `beginInterview` with no active profile/session fails with the
no-session state error and leaves the state unmodified; on a reachable
session already `questioning` (hence with an active question) or `completed`,
it is a no-op that merely reports the in-progress or finished status and
changes nothing. -/
theorem spec_C7 (σ : MState) :
    ((σ.profile = none ∨ σ.session = none) →
      ∀ qs now, beginInterview σ qs now = (BeginOutcome.noSession, σ)) ∧
    (∀ s, σ.session = some s → σ.profile.isSome → StageInvS s →
      (s.stage = SessionStage.questioning ∨ s.stage = SessionStage.completed) →
      ∀ qs now, (beginInterview σ qs now).2 = σ ∧
        ((beginInterview σ qs now).1 = BeginOutcome.alreadyInProgress ∨
         (beginInterview σ qs now).1 = BeginOutcome.alreadyFinished)) := by
  constructor
  · intro hnone qs now
    unfold beginInterview
    rcases hp : σ.profile with _ | p
    · rcases hs2 : σ.session with _ | s2 <;> simp [hp, hs2]
    · rcases hnone with h1 | h1
      · rw [hp] at h1
        cases h1
      · simp [hp, h1]
  · intro s hs hp hSI hor qs now
    rcases hp2 : σ.profile with _ | p
    · rw [hp2] at hp
      cases hp
    · unfold beginInterview
      rcases hor with hq | hcomp
      · have hcur : s.currentQuestionId.isSome := hSI hq
        simp [hp2, hs, hq, hcur]
      · have hne : s.stage ≠ SessionStage.questioning := by
          rw [hcomp]
          decide
        simp [hp2, hs, hcomp, hne]

def exampleCompletedSession : InterviewSession :=
  { exampleSession with stage := .completed, currentQuestionId := none }

def exampleCompletedState : MState :=
  { exampleState with session := some exampleCompletedSession }

/-- Witness for C7: a state with no session errors; a completed session is a
no-op. -/
theorem spec_C7_witness :
    (beginInterview
        ({ profile := none, session := none, candidates := candidatesInitialState,
           answerDraft := "", inFlight := none, autoMarker := none, msgCounter := 0 })
        [exampleQ1] 3
      = (BeginOutcome.noSession,
         { profile := none, session := none, candidates := candidatesInitialState,
           answerDraft := "", inFlight := none, autoMarker := none, msgCounter := 0 })) ∧
    ((exampleCompletedState.session = some exampleCompletedSession ∧
      exampleCompletedState.profile.isSome ∧
      (exampleCompletedSession.stage = SessionStage.questioning ∨
       exampleCompletedSession.stage = SessionStage.completed)) ∧
     ((beginInterview exampleCompletedState [exampleQ1] 3).2 = exampleCompletedState ∧
      ((beginInterview exampleCompletedState [exampleQ1] 3).1 = BeginOutcome.alreadyInProgress ∨
       (beginInterview exampleCompletedState [exampleQ1] 3).1 = BeginOutcome.alreadyFinished))) :=
  ⟨(spec_C7 _).1 (Or.inl rfl) [exampleQ1] 3,
   ⟨⟨rfl, by decide, Or.inr rfl⟩,
    (spec_C7 exampleCompletedState).2 exampleCompletedSession rfl (by decide)
      (fun hq => absurd hq (by decide)) (Or.inr rfl) [exampleQ1] 3⟩⟩

theorem min_ten_max_zero (x : Rat) : min 10 (max 0 x) = max 0 (min 10 x) := by
  rcases le_total x 0 with h | h
  · rw [max_eq_left h, min_eq_right (h.trans (by norm_num)),
      min_eq_right (by norm_num : (0 : Rat) ≤ 10), max_eq_left h]
  · rw [max_eq_right h]
    rcases le_total x 10 with h2 | h2
    · rw [min_eq_right h2, max_eq_right h]
    · rw [min_eq_left h2, max_eq_right (by norm_num : (0 : Rat) ≤ 10)]

theorem summarize_none_finalScore (p : CandidateProfile)
    (qs : List InterviewQuestion) (ans : List AnswerRecord) (hne : ans ≠ []) :
    (summarizeInterviewWithAI none p qs ans).finalScore =
      ratClamp ((ans.map fun r => r.aiScore.getD 5).sum / (ans.length : Rat)) 0 10 := by
  unfold summarizeInterviewWithAI baseSummary ratClamp
  dsimp only
  have hlen : 0 < ans.length := List.length_pos.mpr hne
  rw [if_pos hlen]
  have hfold : ans.foldl (fun total record => total + record.aiScore.getD 5) 0
      = (ans.map fun r => r.aiScore.getD 5).sum := by
    rw [List.sum_eq_foldl, List.foldl_map]
  rw [hfold, min_ten_max_zero]

def scenarioEvents : List MEvent :=
  [.setDraft "react", .beginManual 5, .finish .unavailable none 6,
   .setDraft "node", .beginManual 130, .finish .unavailable none 131]

def offlineFeedback : String :=
  "Using offline evaluator: good effort. Make sure to ground your answer with concrete examples and cover both implementation details and trade-offs."

/-- The two answer records produced by the scenario run. -/
def scenarioAnswers : List AnswerRecord :=
  [{ questionId := "q1", answer := "react", startedAt := 1, submittedAt := 5,
     elapsedSeconds := 0, autoSubmitted := false,
     aiScore := some (fallbackScore "react" .easy),
     aiFeedback := some offlineFeedback },
   { questionId := "q2", answer := "node", startedAt := 6, submittedAt := 130,
     elapsedSeconds := 0, autoSubmitted := false,
     aiScore := some (fallbackScore "node" .hard),
     aiFeedback := some offlineFeedback }]

/-- C8: when summarization falls back (AI unavailable), the resulting
`finalScore` is the mean of the recorded scores — substituting 5 for a
missing score — clamped to `[0,10]`, with the fixed generic strengths and
improvements; and concretely, running a 2-question session (easy/20s,
hard/120s) with evaluation and summarization both unavailable archives a
record whose score is exactly the mean of the two fallback scores, leaving
the session `completed`. -/
theorem spec_C8 (p : CandidateProfile) (qs : List InterviewQuestion)
    (ans : List AnswerRecord) (hne : ans ≠ []) :
    ((summarizeInterviewWithAI none p qs ans).finalScore =
       ratClamp ((ans.map fun r => r.aiScore.getD 5).sum / (ans.length : Rat)) 0 10 ∧
     (summarizeInterviewWithAI none p qs ans).strengths =
       ["Good communication", "Solid practical experience"] ∧
     (summarizeInterviewWithAI none p qs ans).improvements =
       ["Provide more metrics", "Discuss alternative approaches"]) ∧
    ((applyEvents cmp0 exampleState scenarioEvents).session.map (·.stage)
        = some SessionStage.completed ∧
     (recGet (applyEvents cmp0 exampleState scenarioEvents).candidates.records
         "cand-1").map (fun r => r.finalScore) =
       some ((fallbackScore "react" QuestionDifficulty.easy
         + fallbackScore "node" QuestionDifficulty.hard) / 2)) := by
  constructor
  · exact ⟨summarize_none_finalScore p qs ans hne, rfl, rfl⟩
  constructor
  · decide
  · have h1 : (recGet (applyEvents cmp0 exampleState scenarioEvents).candidates.records
        "cand-1").map (fun r => r.finalScore)
        = some ((summarizeInterviewWithAI none exampleProfile [exampleQ1, exampleQ2]
            scenarioAnswers).finalScore) := rfl
    rw [h1, summarize_none_finalScore _ _ _ (by simp [scenarioAnswers])]
    have hs1 : fallbackScore "react" QuestionDifficulty.easy = 403 / 80 := by
      have hb : keywordBoost "react" = 1 := by decide
      have hl : "react".length = 5 := by decide
      unfold fallbackScore
      rw [if_neg (by decide)]
      dsimp only
      rw [hb, hl]
      push_cast
      rw [min_eq_right (by norm_num : (5 : Rat) / 400 ≤ 1),
        min_eq_right (by norm_num [diffBase] :
          diffBase QuestionDifficulty.easy + 1 + (5 : Rat) / 400 * 3 ≤ 10)]
      norm_num [diffBase]
    have hs2 : fallbackScore "node" QuestionDifficulty.hard = 703 / 100 := by
      have hb : keywordBoost "node" = 1 := by decide
      have hl : "node".length = 4 := by decide
      unfold fallbackScore
      rw [if_neg (by decide)]
      dsimp only
      rw [hb, hl]
      push_cast
      rw [min_eq_right (by norm_num : (4 : Rat) / 400 ≤ 1),
        min_eq_right (by norm_num [diffBase] :
          diffBase QuestionDifficulty.hard + 1 + (4 : Rat) / 400 * 3 ≤ 10)]
      norm_num [diffBase]
    simp only [scenarioAnswers, List.map_cons, List.map_nil, Option.getD_some,
      List.sum_cons, List.sum_nil, List.length_cons, List.length_nil]
    rw [hs1, hs2]
    unfold ratClamp
    rw [min_eq_right (by norm_num), max_eq_right (by norm_num)]
    norm_num

/-- Witness for C8 with one concrete recorded answer. -/
theorem spec_C8_witness :
    (exampleRecord :: [] ≠ ([] : List AnswerRecord)) ∧
    (((summarizeInterviewWithAI none exampleProfile [] [exampleRecord]).finalScore =
       ratClamp (([exampleRecord].map fun r => r.aiScore.getD 5).sum
         / (([exampleRecord] : List AnswerRecord).length : Rat)) 0 10 ∧
      (summarizeInterviewWithAI none exampleProfile [] [exampleRecord]).strengths =
        ["Good communication", "Solid practical experience"] ∧
      (summarizeInterviewWithAI none exampleProfile [] [exampleRecord]).improvements =
        ["Provide more metrics", "Discuss alternative approaches"]) ∧
     ((applyEvents cmp0 exampleState scenarioEvents).session.map (·.stage)
        = some SessionStage.completed ∧
      (recGet (applyEvents cmp0 exampleState scenarioEvents).candidates.records
          "cand-1").map (fun r => r.finalScore) =
        some ((fallbackScore "react" QuestionDifficulty.easy
          + fallbackScore "node" QuestionDifficulty.hard) / 2))) :=
  ⟨by simp, spec_C8 exampleProfile [] [exampleRecord] (by simp)⟩

/-- C9: `upsertCandidate` keys the archive by candidate id: starting from any
state with duplicate-free ids, upserting two records with the same id leaves
that id bound to the later record, appearing exactly once in the id list,
which stays duplicate-free. -/
theorem spec_C9 (nameCmp : String → String → Int) (st : CandidatesState)
    (hnd : st.ids.Nodup) (r1 r2 : CandidateArchiveRecord) (hid : r1.id = r2.id) :
    recGet (upsertCandidate nameCmp (upsertCandidate nameCmp st r1) r2).records r2.id
      = some r2 ∧
    (upsertCandidate nameCmp (upsertCandidate nameCmp st r1) r2).ids.count r2.id = 1 ∧
    (upsertCandidate nameCmp (upsertCandidate nameCmp st r1) r2).ids.Nodup := by
  unfold upsertCandidate applySort
  dsimp only
  have hbase1 : (if r1.id ∈ st.ids then st.ids else st.ids ++ [r1.id]).count r1.id = 1 := by
    by_cases hmem : r1.id ∈ st.ids
    · rw [if_pos hmem]
      exact List.count_eq_one_of_mem hnd hmem
    · rw [if_neg hmem, List.count_append]
      rw [List.count_eq_zero.mpr hmem]
      simp
  have hbasend : (if r1.id ∈ st.ids then st.ids else st.ids ++ [r1.id]).Nodup := by
    by_cases hmem : r1.id ∈ st.ids
    · rw [if_pos hmem]
      exact hnd
    · rw [if_neg hmem]
      refine hnd.append (by simp) ?_
      intro a ha hb
      simp at hb
      subst hb
      exact hmem ha
  set le1 := fun l r => decide (sortComparator nameCmp
    (recSet st.records r1.id r1) st.sortKey st.sortDirection l r ≤ 0) with hle1
  set ids1 := (if r1.id ∈ st.ids then st.ids else st.ids ++ [r1.id]).mergeSort le1 with hids1
  have hperm1 : ids1.Perm (if r1.id ∈ st.ids then st.ids else st.ids ++ [r1.id]) :=
    List.mergeSort_perm _ _
  have hcount1 : ids1.count r1.id = 1 := by
    rw [hperm1.count_eq]
    exact hbase1
  have hnd1 : ids1.Nodup := hperm1.nodup_iff.mpr hbasend
  have hmem1 : r2.id ∈ ids1 := by
    rw [← hid]
    have : 0 < ids1.count r1.id := by omega
    exact List.count_pos_iff.mp this
  rw [if_pos hmem1]
  refine ⟨?_, ?_, ?_⟩
  · rw [recGet_recSet]
    simp
  · rw [(List.mergeSort_perm ids1 _).count_eq, ← hid]
    exact hcount1
  · exact (List.mergeSort_perm ids1 _).nodup_iff.mpr hnd1

def exampleSummary : InterviewSummary :=
  { finalScore := 5, summaryText := "s", strengths := [], improvements := [] }

def exampleArchive1 : CandidateArchiveRecord :=
  { id := "cand-1", profile := exampleProfile, sessionId := "sess-1", completedAt := 10,
    finalScore := 5, summary := exampleSummary,
    questions := [], answers := [], chat := [] }

def exampleArchive2 : CandidateArchiveRecord :=
  { exampleArchive1 with sessionId := "sess-2", completedAt := 20, finalScore := 7 }

/-- Witness for C9: two finalizations for the same candidate id. -/
theorem spec_C9_witness :
    (candidatesInitialState.ids.Nodup ∧ exampleArchive1.id = exampleArchive2.id) ∧
    (recGet (upsertCandidate cmp0 (upsertCandidate cmp0 candidatesInitialState
        exampleArchive1) exampleArchive2).records exampleArchive2.id
      = some exampleArchive2 ∧
     (upsertCandidate cmp0 (upsertCandidate cmp0 candidatesInitialState
        exampleArchive1) exampleArchive2).ids.count exampleArchive2.id = 1 ∧
     (upsertCandidate cmp0 (upsertCandidate cmp0 candidatesInitialState
        exampleArchive1) exampleArchive2).ids.Nodup) :=
  ⟨⟨by decide, rfl⟩,
   spec_C9 cmp0 candidatesInitialState (by decide) exampleArchive1 exampleArchive2 rfl⟩

/-- Reading one required profile field. -/
def profileField (p : CandidateProfile) : RequiredProfileField → Option String
  | .name => p.name
  | .email => p.email
  | .phone => p.phone

theorem strLength_eq_zero (s : String) : s.length = 0 ↔ s = "" := by
  cases s with
  | mk data =>
      constructor
      · intro h
        have hd : data = [] := List.length_eq_zero.mp h
        subst hd
        rfl
      · intro h
        rw [h]
        rfl

/-- C10: `updateProfileField` on an active profile stores the
whitespace-trimmed value in the named field; afterwards that field is missing
iff the trimmed value is empty, the missing-status of every other field is unchanged, and,
from the `profile-completion` stage — the automatic advance to
`ready-to-start` fires exactly when the missing list has become empty. -/
theorem spec_C10 (σ : MState) (p : CandidateProfile) (field : RequiredProfileField)
    (value : String) (hp : σ.profile = some p) :
    ∃ p2, (updateProfileField σ field value).profile = some p2 ∧
      profileField p2 field = some (jsTrim value) ∧
      (field ∈ p2.missingFields ↔ jsTrim value = "") ∧
      (∀ f, f ≠ field → (f ∈ p2.missingFields ↔ f ∈ p.missingFields)) ∧
      (∀ s now, σ.session = some s → s.stage = SessionStage.profileCompletion →
        ((profileAutoAdvance (updateProfileField σ field value) now).session.map (·.stage)
            = some SessionStage.readyToStart ↔ p2.missingFields = [])) := by
  unfold updateProfileField
  simp only [hp]
  refine ⟨_, rfl, ?_, ?_, ?_, ?_⟩
  · cases field <;> rfl
  · show field ∈ nextMissingFields p.missingFields field (jsTrim value) ↔ jsTrim value = ""
    unfold nextMissingFields
    dsimp only
    by_cases hz : (jsTrim value).length = 0
    · rw [if_pos hz]
      have hz2 : jsTrim value = "" := (strLength_eq_zero _).mp hz
      constructor
      · intro _
        exact hz2
      · intro _
        by_cases hmem : field ∈ p.missingFields.dedup
        · rw [if_pos hmem]
          exact hmem
        · rw [if_neg hmem]
          exact List.mem_append.mpr (Or.inr (by simp))
    · rw [if_neg hz]
      have hz2 : jsTrim value ≠ "" := fun he => hz ((strLength_eq_zero _).mpr he)
      constructor
      · intro hmem
        exfalso
        rw [List.mem_filter] at hmem
        have h2 := hmem.2
        simp at h2
      · intro he
        exact absurd he hz2
  · intro f hf
    show f ∈ nextMissingFields p.missingFields field (jsTrim value) ↔ f ∈ p.missingFields
    unfold nextMissingFields
    dsimp only
    by_cases hz : (jsTrim value).length = 0
    · rw [if_pos hz]
      by_cases hmem : field ∈ p.missingFields.dedup
      · rw [if_pos hmem, List.mem_dedup]
      · rw [if_neg hmem, List.mem_append]
        constructor
        · rintro (hx | hx)
          · exact List.mem_dedup.mp hx
          · simp at hx
            exact absurd hx hf
        · intro hx
          exact Or.inl (List.mem_dedup.mpr hx)
    · rw [if_neg hz, List.mem_filter]
      constructor
      · intro hx
        exact List.mem_dedup.mp hx.1
      · intro hx
        exact ⟨List.mem_dedup.mpr hx, by simp [hf]⟩
  · intro s now hs hstage
    unfold profileAutoAdvance
    simp only [hs]
    rcases hm : nextMissingFields p.missingFields field (jsTrim value) with _ | ⟨f0, tl⟩
    · rw [if_pos ⟨hstage, by simp [hm]⟩]
      simp [setSessionStage, touchSession, hm]
    · rw [if_neg (by simp [hm])]
      simp [hs, hstage, hm]

/-- Witness for C10: setting the email field to a whitespace-padded value. -/
theorem spec_C10_witness :
    (exampleState.profile = some exampleProfile) ∧
    (∃ p2, (updateProfileField exampleState .email " x@y.co ").profile = some p2 ∧
      profileField p2 .email = some (jsTrim " x@y.co ") ∧
      (RequiredProfileField.email ∈ p2.missingFields ↔ jsTrim " x@y.co " = "") ∧
      (∀ f, f ≠ RequiredProfileField.email →
        (f ∈ p2.missingFields ↔ f ∈ exampleProfile.missingFields)) ∧
      (∀ s now, exampleState.session = some s → s.stage = SessionStage.profileCompletion →
        ((profileAutoAdvance (updateProfileField exampleState .email " x@y.co ") now).session.map
            (·.stage) = some SessionStage.readyToStart ↔ p2.missingFields = []))) :=
  ⟨rfl, spec_C10 exampleState exampleProfile .email " x@y.co " rfl⟩

end Crisp
